import Mathlib

/-!
Shallow embedding of the Leseassistent session/cache/real-time-sync core
(src/app.py) and verification of the spec claims about it.

Modelling conventions:
* Python dicts become association lists `List (String × β)` with the helpers
  `alookup` (dict access), `aset` (dict assignment: replace in place or append),
  `aerase` (del), `aupdate` (in-place field mutation of an existing entry);
  Python 3.7+ dicts preserve insertion order, as do these lists.
* `datetime.now()` becomes an explicit `now : Nat` parameter; `timedelta(hours=3)`
  becomes the constant `SESSION_TIMEOUT_HOURS` added to `now` (time is abstract).
* `random.choices` / `random.randint` become explicit pick parameters supplied by
  the caller; the unbounded retry loop of `generate_session_code` gets fuel.
* `request.sid` becomes an explicit `sid` argument; `data.get(k, default)` becomes
  an `Option`-typed argument consumed with `Option.getD default`.
* Socket.IO emits are recorded as an explicit list of `Emit` values; an `Emit`
  with `room = none` is a direct reply to the acting connection, `room = some r`
  is a broadcast into room `r`.
-/

namespace Leseassistent

/-- Dict access: first binding of the key in the association list. -/
def alookup {β : Type} : List (String × β) → String → Option β
  | [], _ => none
  | (k, v) :: rest, key => if k = key then some v else alookup rest key

/-- Keys of an association list, in insertion order. -/
def akeys {β : Type} (l : List (String × β)) : List String :=
  l.map Prod.fst

/-- Dict membership test (`key in d`). -/
def amem {β : Type} (l : List (String × β)) (key : String) : Bool :=
  (alookup l key).isSome

/-- Dict deletion (`del d[key]`). -/
def aerase {β : Type} (l : List (String × β)) (key : String) : List (String × β) :=
  l.filter (fun p => p.1 != key)

/-- Dict assignment (`d[key] = v`): replaces in place if present, else appends. -/
def aset {β : Type} (l : List (String × β)) (key : String) (v : β) : List (String × β) :=
  if amem l key then l.map (fun p => if p.1 = key then (key, v) else p) else l ++ [(key, v)]

/-- In-place mutation of an existing entry (`d[key].field = ...`); identity when absent. -/
def aupdate {β : Type} (l : List (String × β)) (key : String) (f : β → β) : List (String × β) :=
  l.map (fun p => if p.1 = key then (key, f p.2) else p)

/-- `SESSION_CODE_LENGTH = 6`. -/
def SESSION_CODE_LENGTH : Nat := 6

/-- `SESSION_TIMEOUT_HOURS = 3` (the fixed session TTL, in abstract time units). -/
def SESSION_TIMEOUT_HOURS : Nat := 3

/-- `CLEANUP_INTERVAL_SECONDS = 300`. -/
def CLEANUP_INTERVAL_SECONDS : Nat := 300

/-- `MAX_CACHE_SIZE = 500` (TTS cache bound). -/
def MAX_CACHE_SIZE : Nat := 500

/-- `MAX_TRANSLATION_CACHE_SIZE = 1000`. -/
def MAX_TRANSLATION_CACHE_SIZE : Nat := 1000

/-- The fixed ordered catalogue `ANONYMOUS_ANIMALS` of (emoji, label) pairs. -/
def ANONYMOUS_ANIMALS : List (String × String) :=
  [("🦊", "Fuchs"), ("🐻", "Bär"), ("🦁", "Löwe"), ("🐯", "Tiger"),
   ("🦋", "Schmetterling"), ("🐢", "Schildkröte"), ("🦉", "Eule"), ("🐬", "Delfin"),
   ("🦅", "Adler"), ("🐺", "Wolf"), ("🦌", "Hirsch"), ("🐘", "Elefant"),
   ("🦒", "Giraffe"), ("🐼", "Panda"), ("🦜", "Papagei"), ("🐨", "Koala"),
   ("🦩", "Flamingo"), ("🐸", "Frosch"), ("🦔", "Igel"), ("🐿️", "Eichhörnchen"),
   ("🦭", "Robbe"), ("🐧", "Pinguin"), ("🦚", "Pfau"), ("🐝", "Biene"),
   ("🦎", "Eidechse"), ("🐙", "Oktopus"), ("🦀", "Krabbe"), ("🐌", "Schnecke")]

/-- The character pool of `generate_session_code`:
`chars = 'ABCDEFGHJKLMNPQRSTUVWXYZ23456789'`. -/
def sessionCodeChars : List Char :=
  "ABCDEFGHJKLMNPQRSTUVWXYZ23456789".toList

/-- The credential bundle stored in `sessions[code]['keys']`.
`stt_provider` is only present when the session was created over the WebSocket
handler, hence `Option`; reads use `.getD "browser"` mirroring
`keys.get('stt_provider', 'browser')`. -/
structure Keys where
  elevenlabs : String
  ai : String
  ai_provider : String
  voice_id : String
  stt_provider : Option String
deriving DecidableEq

/-- One entry of `sessions[code]['students']`. -/
structure Student where
  joined : Nat
  name : Option String
  animal_index : Nat
  animal_emoji : String
  animal_name : String
  anonymous_id : String
deriving DecidableEq

/-- One entry of `sessions[code]['translation_requests']`. -/
structure TranslationRequest where
  language : String
  language_name : String
  status : String
  anonymous_id : String
  requested_at : Nat
  translated_text : Option String
deriving DecidableEq

/-- One entry of `sessions[code]['student_levels']`. -/
structure StudentLevel where
  level : String
  anonymous_id : Option String
  timestamp : Nat
deriving DecidableEq

/-- The per-session state dict created by `create_session`.  `settings` is not a
key of the freshly created dict in the source; it is only ever read through
`session.get('settings', {})`, so the empty default here is observationally
identical. Tasks and settings payloads are kept as opaque strings. -/
structure Session where
  keys : Keys
  teacher_sid : Option String
  created : Nat
  expires : Nat
  students : List (String × Student)
  text : String
  pin : String
  tasks : List String
  tasks_available : Bool
  translation_requests : List (String × TranslationRequest)
  simplification_enabled : Bool
  student_levels : List (String × StudentLevel)
  settings : List (String × String)
deriving DecidableEq

/-- The global `sessions` dict. -/
abbrev Registry := List (String × Session)

/-- The inner loop of `get_anonymous_name`: first index `i` (starting at `start`,
for `fuel` steps) with `i not in used_indices`, mirroring
`for i in range(len(ANONYMOUS_ANIMALS)): if i not in used_indices: return i`. -/
def firstFreeAux (used : List Nat) : Nat → Nat → Option Nat
  | 0, _ => none
  | fuel + 1, i => if used.contains i then firstFreeAux used fuel (i + 1) else some i

/-- `get_anonymous_name(session_code, student_sid)`; `randPick` models
`random.randint(0, len(ANONYMOUS_ANIMALS) - 1)` (reduced mod the catalogue
length to make the embedding total). -/
def get_anonymous_name (reg : Registry) (session_code _student_sid : String)
    (randPick : Nat) : Nat × (String × String) :=
  match alookup reg session_code with
  | some s =>
    let used := s.students.map (fun p => p.2.animal_index)
    match firstFreeAux used ANONYMOUS_ANIMALS.length 0 with
    | some i => (i, ANONYMOUS_ANIMALS.getD i ("", ""))
    | none =>
      let idx := randPick % ANONYMOUS_ANIMALS.length
      let en := ANONYMOUS_ANIMALS.getD idx ("", "")
      (idx, (en.1, en.2 ++ " " ++ toString (s.students.length + 1)))
  | none => (0, ANONYMOUS_ANIMALS.getD 0 ("", ""))

/-- One candidate code: `''.join(random.choices(chars, k=SESSION_CODE_LENGTH))`,
with the random draw for position `i` supplied by `pick i`. -/
def sampleCode (pick : Nat → Nat) : String :=
  String.mk ((List.range SESSION_CODE_LENGTH).map
    (fun i => sessionCodeChars.getD (pick i % sessionCodeChars.length) 'A'))

/-- `generate_session_code`: retry until the candidate is not a key of `sessions`.
`stream i` is the randomness of the `i`-th attempt; the source loop is unbounded,
so the embedding carries fuel and returns `none` only on fuel exhaustion. -/
def generate_session_code (reg : Registry) (stream : Nat → Nat → Nat) :
    Nat → Nat → Option String
  | 0, _ => none
  | fuel + 1, i =>
    let code := sampleCode (stream i)
    if amem reg code then generate_session_code reg stream fuel (i + 1) else some code

/-- The fresh session dict literal inside `create_session`. -/
def mkSession (teacher_sid : Option String) (keys : Keys) (pin : String) (now : Nat) :
    Session :=
  { keys := keys, teacher_sid := teacher_sid, created := now,
    expires := now + SESSION_TIMEOUT_HOURS, students := [], text := "", pin := pin,
    tasks := [], tasks_available := false, translation_requests := [],
    simplification_enabled := false, student_levels := [], settings := [] }

/-- `create_session(teacher_sid, keys, pin='')`. -/
def create_session (reg : Registry) (now : Nat) (teacher_sid : Option String)
    (keys : Keys) (pin : String) (stream : Nat → Nat → Nat) (fuel : Nat) :
    Option (String × Registry) :=
  match generate_session_code reg stream fuel 0 with
  | none => none
  | some code => some (code, reg ++ [(code, mkSession teacher_sid keys pin now)])

/-- `get_session(code)`: returns the session only while unexpired; an expired
entry is deleted as a side effect. Returns (result, new registry). -/
def get_session (reg : Registry) (now : Nat) (code : String) :
    Option Session × Registry :=
  match alookup reg code with
  | some s => if now < s.expires then (some s, reg) else (none, aerase reg code)
  | none => (none, reg)

/-- `end_session(code)`. -/
def end_session (reg : Registry) (code : String) : Bool × Registry :=
  if amem reg code then (true, aerase reg code) else (false, reg)

/-- `add_student_to_session(code, student_sid, student_name)`. -/
def add_student_to_session (reg : Registry) (now : Nat) (code student_sid : String)
    (student_name : Option String) (randPick : Nat) : Option Student × Registry :=
  let an := get_anonymous_name reg code student_sid randPick
  match alookup reg code with
  | some _ =>
    let st : Student :=
      { joined := now, name := student_name, animal_index := an.1,
        animal_emoji := an.2.1, animal_name := an.2.2,
        anonymous_id := an.2.1 ++ " " ++ an.2.2 }
    (some st, aupdate reg code (fun s => { s with students := aset s.students student_sid st }))
  | none => (none, reg)

/-- `remove_student_from_session(code, student_sid)`. -/
def remove_student_from_session (reg : Registry) (code student_sid : String) :
    Bool × Registry :=
  match alookup reg code with
  | some s =>
    if amem s.students student_sid then
      (true, aupdate reg code (fun s' => { s' with students := aerase s'.students student_sid }))
    else (false, reg)
  | none => (false, reg)

/-- `cleanup_expired_sessions()`: drop every session with `now >= expires`. -/
def cleanup_expired_sessions (reg : Registry) (now : Nat) : Registry :=
  reg.filter (fun p => decide (now < p.2.expires))

/-- The `session_cleanup_thread` loop body, run for `horizon` intervals:
`while True: time.sleep(CLEANUP_INTERVAL_SECONDS); cleanup_expired_sessions()`.
`sweep i` is the outcome of the `i`-th call of `cleanup_expired_sessions`
(`Except.error` models the underlying mutation raising).  The source has no
exception handler around the call, so a raised exception propagates out of
the `while` and kills the daemon thread; the embedding therefore stops at the
first error.  Returns (number of sweep iterations actually executed, the
escaped exception if the thread died). -/
def session_cleanup_thread_run (sweep : Nat → Except String Unit) :
    Nat → Nat → Nat × Option String
  | 0, _ => (0, none)
  | horizon + 1, i =>
    match sweep i with
    | Except.ok _ =>
      let r := session_cleanup_thread_run sweep horizon (i + 1)
      (r.1 + 1, r.2)
    | Except.error e => (1, some e)

/-- A bounded LRU store, modelling a Python `OrderedDict` as a list in access
order: head = least recently used, last = most recently used. -/
abbrev Cache (α : Type) := List (String × α)

/-- `od.move_to_end(key)` (no-op when the key is absent, which never happens at
the call sites). -/
def move_to_end {α : Type} (c : Cache α) (key : String) : Cache α :=
  match alookup c key with
  | some v => aerase c key ++ [(key, v)]
  | none => c

/-- The shared shape of `get_from_cache` / `get_from_translation_cache`:
on a hit, mark most-recently-used and return the value. -/
def cacheGet {α : Type} (c : Cache α) (key : String) : Option α × Cache α :=
  match alookup c key with
  | some v => (some v, move_to_end c key)
  | none => (none, c)

/-- The shared shape of `add_to_cache` / `add_to_translation_cache`:
if the key exists, only refresh its recency; otherwise evict the head
(`popitem(last=False)`) when at capacity, then append. -/
def cachePut {α : Type} (maxSize : Nat) (c : Cache α) (key : String) (v : α) : Cache α :=
  if amem c key then move_to_end c key
  else if maxSize ≤ c.length then c.drop 1 ++ [(key, v)]
  else c ++ [(key, v)]

/-- `get_from_cache(cache_key)` on the TTS cache. -/
def get_from_cache {α : Type} (c : Cache α) (key : String) : Option α × Cache α :=
  cacheGet c key

/-- `add_to_cache(cache_key, data)` on the TTS cache. -/
def add_to_cache {α : Type} (c : Cache α) (key : String) (v : α) : Cache α :=
  cachePut MAX_CACHE_SIZE c key v

/-- `get_from_translation_cache(cache_key)`. -/
def get_from_translation_cache (c : Cache String) (key : String) :
    Option String × Cache String :=
  cacheGet c key

/-- `add_to_translation_cache(cache_key, translated_text)`. -/
def add_to_translation_cache (c : Cache String) (key v : String) : Cache String :=
  cachePut MAX_TRANSLATION_CACHE_SIZE c key v

/-- An abstract client request against one cache instance. -/
inductive CacheOp (α : Type)
  | get (key : String)
  | put (key : String) (v : α)

/-- Run a sequence of cache operations against a store of capacity `maxSize`. -/
def runCacheOps {α : Type} (maxSize : Nat) (c : Cache α) : List (CacheOp α) → Cache α
  | [] => c
  | CacheOp.get k :: rest => runCacheOps maxSize (cacheGet c k).2 rest
  | CacheOp.put k v :: rest => runCacheOps maxSize (cachePut maxSize c k v) rest

/-- Serialized JSON values of responses and emit payloads.  Timestamps
(`isoformat()` strings) are abstracted as their numeric instants. -/
inductive JVal
  | jnull
  | jbool (b : Bool)
  | jnum (n : Nat)
  | jstr (s : String)
  | jarr (xs : List JVal)
  | jobj (fields : List (String × JVal))

/-- A recorded Socket.IO `emit`: `room = none` is a direct reply to the acting
connection (`emit(event, payload)`), `room = some r` is
`socketio.emit(event, payload, room=r)`. -/
structure Emit where
  event : String
  payload : JVal
  room : Option String

/-- An `emit('session_error', {'error': msg})` reply to the acting connection. -/
def sessionError (msg : String) : Emit :=
  ⟨"session_error", JVal.jobj [("error", JVal.jstr msg)], none⟩

/-- An HTTP response: status and JSON body. -/
structure HttpResp where
  status : Nat
  body : JVal

/-- A `jsonify({'error': msg}), status` body. -/
def errBody (msg : String) : JVal :=
  JVal.jobj [("error", JVal.jstr msg)]

/-- Session-code normalization `data.get('code', '').upper().strip()`, carried
out on the underlying character sequence: uppercase every character, then strip
leading and trailing whitespace. -/
def normCode (s : String) : String :=
  String.mk ((((s.data.map Char.toUpper).dropWhile Char.isWhitespace).reverse.dropWhile
    Char.isWhitespace).reverse)

/-- The `LANGUAGE_NAMES` table. -/
def LANGUAGE_NAMES : List (String × String) :=
  [("tr", "Türkisch"), ("bg", "Bulgarisch"), ("de", "Deutsch"),
   ("ar", "Arabisch"), ("uk", "Ukrainisch"), ("en", "Englisch")]

/-- `LANGUAGE_NAMES.get(language, language)`. -/
def languageName (language : String) : String :=
  (alookup LANGUAGE_NAMES language).getD language

/-- Serialization of a settings dict. -/
def jSettings (settings : List (String × String)) : JVal :=
  JVal.jobj (settings.map (fun p => (p.1, JVal.jstr p.2)))

/-- Serialization of a task list. -/
def jTasks (tasks : List String) : JVal :=
  JVal.jarr (tasks.map JVal.jstr)

/-- `POST /api/session/create` (`api_create_session`).  The request fields are
`data.get(...)` results; defaults are applied here as in the source. The HTTP
create passes `teacher_sid = None` and stores no `stt_provider` key. -/
def api_create_session (reg : Registry) (now : Nat)
    (elevenlabs_key ai_key ai_provider voice_id : Option String)
    (stream : Nat → Nat → Nat) (fuel : Nat) : Registry × HttpResp :=
  let keys : Keys :=
    { elevenlabs := elevenlabs_key.getD "", ai := ai_key.getD "",
      ai_provider := ai_provider.getD "openai",
      voice_id := voice_id.getD "21m00Tcm4TlvDq8ikWAM", stt_provider := none }
  if keys.elevenlabs = "" then (reg, ⟨400, errBody "ElevenLabs API Key erforderlich"⟩)
  else
    match create_session reg now none keys "" stream fuel with
    | some cr =>
      (cr.2, ⟨200, JVal.jobj [("success", JVal.jbool true), ("code", JVal.jstr cr.1),
        ("expires", JVal.jnum (now + SESSION_TIMEOUT_HOURS))]⟩)
    | none => (reg, ⟨500, errBody "code generation failed"⟩)

/-- `POST /api/session/join` (`api_join_session`). -/
def api_join_session (reg : Registry) (now : Nat) (code : Option String) :
    Registry × HttpResp :=
  let codeN := normCode (code.getD "")
  let r := get_session reg now codeN
  match r.1 with
  | some s =>
    (r.2, ⟨200, JVal.jobj [("success", JVal.jbool true), ("code", JVal.jstr codeN),
      ("student_count", JVal.jnum s.students.length)]⟩)
  | none => (r.2, ⟨404, errBody "Session nicht gefunden oder abgelaufen"⟩)

/-- `POST /api/session/end` (`api_end_session`).  Note: no ownership check in
the source; the HTTP request carries no connection identity at all. -/
def api_end_session (reg : Registry) (code : Option String) :
    Registry × List Emit × HttpResp :=
  let codeN := normCode (code.getD "")
  let e := end_session reg codeN
  if e.1 then
    (e.2, [⟨"session_ended", JVal.jobj [("message", JVal.jstr "Die Session wurde beendet.")],
      some codeN⟩], ⟨200, JVal.jobj [("success", JVal.jbool true)]⟩)
  else (e.2, [], ⟨404, errBody "Session nicht gefunden"⟩)

/-- `GET /api/session/status/<code>` (`api_session_status`). -/
def api_session_status (reg : Registry) (now : Nat) (code : String) :
    Registry × HttpResp :=
  let codeN := normCode code
  let r := get_session reg now codeN
  match r.1 with
  | some s =>
    (r.2, ⟨200, JVal.jobj [("code", JVal.jstr codeN),
      ("student_count", JVal.jnum s.students.length),
      ("created", JVal.jnum s.created), ("expires", JVal.jnum s.expires),
      ("has_text", JVal.jbool (s.text ≠ ""))]⟩)
  | none => (r.2, ⟨404, errBody "Session nicht gefunden"⟩)

/-- `GET /api/session/settings/<code>` (`api_session_settings`).  The body
serializes `keys.get('stt_provider', 'browser')` and `keys.get('voice_id', ...)`
straight from the credential bundle (`voice_id` is always a key of the stored
bundle, so its `.get` default is elided). -/
def api_session_settings (reg : Registry) (now : Nat) (code : String) :
    Registry × HttpResp :=
  let codeN := normCode code
  let r := get_session reg now codeN
  match r.1 with
  | some s =>
    (r.2, ⟨200, JVal.jobj [("code", JVal.jstr codeN),
      ("stt_provider", JVal.jstr (s.keys.stt_provider.getD "browser")),
      ("voice_id", JVal.jstr s.keys.voice_id),
      ("has_elevenlabs", JVal.jbool (s.keys.elevenlabs ≠ ""))]⟩)
  | none => (r.2, ⟨404, errBody "Session nicht gefunden"⟩)

/-- `POST /api/session/set-text` (`api_set_session_text`).  The source mutates
under the raw `sessions` dict (`if code in sessions`, no expiry check, no
ownership check) and broadcasts `text_updated` into the session room. -/
def api_set_session_text (reg : Registry) (code text : Option String) :
    Registry × List Emit × HttpResp :=
  let codeN := normCode (code.getD "")
  let textV := text.getD ""
  if amem reg codeN then
    (aupdate reg codeN (fun s => { s with text := textV }),
     [⟨"text_updated", JVal.jobj [("text", JVal.jstr textV)], some codeN⟩],
     ⟨200, JVal.jobj [("success", JVal.jbool true)]⟩)
  else (reg, [], ⟨404, errBody "Session nicht gefunden"⟩)

/-- `GET /api/session/get-text/<code>` (`api_get_session_text`). -/
def api_get_session_text (reg : Registry) (now : Nat) (code : String) :
    Registry × HttpResp :=
  let codeN := normCode code
  let r := get_session reg now codeN
  match r.1 with
  | some s => (r.2, ⟨200, JVal.jobj [("text", JVal.jstr s.text)]⟩)
  | none => (r.2, ⟨404, errBody "Session nicht gefunden"⟩)

/-- WebSocket `teacher_create_session` (`handle_teacher_create_session`). -/
def handle_teacher_create_session (reg : Registry) (now : Nat) (sid : String)
    (elevenlabs_key ai_key ai_provider voice_id stt_provider pin : Option String)
    (stream : Nat → Nat → Nat) (fuel : Nat) : Registry × List Emit :=
  let keys : Keys :=
    { elevenlabs := elevenlabs_key.getD "", ai := ai_key.getD "",
      ai_provider := ai_provider.getD "openai",
      voice_id := voice_id.getD "21m00Tcm4TlvDq8ikWAM",
      stt_provider := some (stt_provider.getD "browser") }
  if keys.elevenlabs = "" then
    (reg, [sessionError "ElevenLabs API Key erforderlich"])
  else
    let pinV := pin.getD ""
    match create_session reg now (some sid) keys pinV stream fuel with
    | some cr =>
      (cr.2, [⟨"session_created", JVal.jobj [("code", JVal.jstr cr.1),
        ("expires", JVal.jnum (now + SESSION_TIMEOUT_HOURS)),
        ("has_pin", JVal.jbool (pinV ≠ ""))], none⟩])
    | none => (reg, [])

/-- WebSocket `student_join_session` (`handle_student_join_session`).  The
source reads `len(session['students'])` after `add_student_to_session` has
mutated the same dict, so the reported count includes the joiner. -/
def handle_student_join_session (reg : Registry) (now : Nat) (sid : String)
    (code name : Option String) (randPick : Nat) : Registry × List Emit :=
  let codeN := normCode (code.getD "")
  let nameV := name.getD "Anonym"
  let r := get_session reg now codeN
  match r.1 with
  | none =>
    (r.2, [⟨"join_error", errBody "Session nicht gefunden oder abgelaufen", none⟩])
  | some s =>
    let ar := add_student_to_session r.2 now codeN sid (some nameV) randPick
    let anonId := match ar.1 with | some st => st.anonymous_id | none => "🐾 Gast"
    let joinSuccess : Emit :=
      ⟨"join_success", JVal.jobj [("code", JVal.jstr codeN), ("text", JVal.jstr s.text),
        ("settings", jSettings s.settings),
        ("tasks_available", JVal.jbool s.tasks_available),
        ("tasks", if s.tasks_available then jTasks s.tasks else jTasks []),
        ("anonymous_id", JVal.jstr anonId),
        ("animal_emoji", JVal.jstr (match ar.1 with | some st => st.animal_emoji | none => "🐾")),
        ("animal_name", JVal.jstr (match ar.1 with | some st => st.animal_name | none => "Gast")),
        ("simplification_enabled", JVal.jbool s.simplification_enabled)], none⟩
    let newCount := match alookup ar.2 codeN with | some s2 => s2.students.length | none => 0
    let toTeacher := match s.teacher_sid with
      | some tsid =>
        [⟨"student_joined", JVal.jobj [("count", JVal.jnum newCount),
          ("name", JVal.jstr nameV), ("anonymous_id", JVal.jstr anonId),
          ("student_sid", JVal.jstr sid)], some tsid⟩]
      | none => []
    (ar.2, joinSuccess :: toTeacher)

/-- WebSocket `teacher_end_session` (`handle_teacher_end_session`). -/
def handle_teacher_end_session (reg : Registry) (now : Nat) (sid : String)
    (code : Option String) : Registry × List Emit :=
  let codeN := normCode (code.getD "")
  let r := get_session reg now codeN
  match r.1 with
  | some s =>
    if s.teacher_sid = some sid then
      let e := end_session r.2 codeN
      (e.2, [⟨"session_ended",
        JVal.jobj [("message", JVal.jstr "Die Session wurde vom Lehrer beendet.")], some codeN⟩,
        ⟨"session_ended_confirmed", JVal.jobj [("success", JVal.jbool true)], none⟩])
    else (r.2, [sessionError "Keine Berechtigung oder Session nicht gefunden"])
  | none => (r.2, [sessionError "Keine Berechtigung oder Session nicht gefunden"])

/-- WebSocket `teacher_update_settings` (`handle_teacher_update_settings`). -/
def handle_teacher_update_settings (reg : Registry) (now : Nat) (sid : String)
    (code : Option String) (settings : Option (List (String × String))) :
    Registry × List Emit :=
  let codeN := normCode (code.getD "")
  let settingsV := settings.getD []
  let r := get_session reg now codeN
  match r.1 with
  | some s =>
    if s.teacher_sid = some sid then
      (aupdate r.2 codeN (fun s' => { s' with settings := settingsV }),
       [⟨"settings_updated", JVal.jobj [("settings", jSettings settingsV)], some codeN⟩])
    else (r.2, [sessionError "Keine Berechtigung oder Session nicht gefunden"])
  | none => (r.2, [sessionError "Keine Berechtigung oder Session nicht gefunden"])

/-- WebSocket `teacher_release_tasks` (`handle_teacher_release_tasks`). -/
def handle_teacher_release_tasks (reg : Registry) (now : Nat) (sid : String)
    (code : Option String) (tasks : Option (List String)) : Registry × List Emit :=
  let codeN := normCode (code.getD "")
  let tasksV := tasks.getD []
  let r := get_session reg now codeN
  match r.1 with
  | some s =>
    if s.teacher_sid = some sid then
      (aupdate r.2 codeN (fun s' => { s' with tasks := tasksV, tasks_available := true }),
       [⟨"tasks_released", JVal.jobj [("tasks", jTasks tasksV)], some codeN⟩])
    else (r.2, [sessionError "Keine Berechtigung oder Session nicht gefunden"])
  | none => (r.2, [sessionError "Keine Berechtigung oder Session nicht gefunden"])

/-- WebSocket `student_request_translation` (`handle_student_request_translation`). -/
def handle_student_request_translation (reg : Registry) (now : Nat) (sid : String)
    (code language : Option String) : Registry × List Emit :=
  let codeN := normCode (code.getD "")
  let lang := language.getD ""
  let r := get_session reg now codeN
  match r.1 with
  | none => (r.2, [⟨"translation_error", errBody "Session nicht gefunden", none⟩])
  | some s =>
    let anonId := match alookup s.students sid with
      | some st => st.anonymous_id
      | none => "🐾 Gast"
    let treq : TranslationRequest :=
      { language := lang, language_name := languageName lang, status := "pending",
        anonymous_id := anonId, requested_at := now, translated_text := none }
    let reg2 := aupdate r.2 codeN
      (fun s' => { s' with translation_requests := aset s'.translation_requests sid treq })
    let toTeacher := match s.teacher_sid with
      | some tsid =>
        [⟨"translation_request_received", JVal.jobj [("student_sid", JVal.jstr sid),
          ("anonymous_id", JVal.jstr anonId), ("language", JVal.jstr lang),
          ("language_name", JVal.jstr (languageName lang))], some tsid⟩]
      | none => []
    (reg2, ⟨"translation_request_sent", JVal.jobj [("language", JVal.jstr lang),
      ("language_name", JVal.jstr (languageName lang))], none⟩ :: toTeacher)

/-- WebSocket `teacher_approve_translation` (`handle_teacher_approve_translation`).
`translate` is the external `translate_text_with_ai(text, language, ai_key,
ai_provider)` oracle; `Except.error` models the call raising. -/
def handle_teacher_approve_translation (reg : Registry) (now : Nat) (sid : String)
    (code student_sid layout : Option String)
    (translate : String → String → String → String → Except String String) :
    Registry × List Emit :=
  let codeN := normCode (code.getD "")
  let stSid := student_sid.getD ""
  let layoutV := layout.getD "side-by-side"
  let r := get_session reg now codeN
  match r.1 with
  | none => (r.2, [sessionError "Keine Berechtigung"])
  | some s =>
    if s.teacher_sid ≠ some sid then (r.2, [sessionError "Keine Berechtigung"])
    else
      match alookup s.translation_requests stSid with
      | none => (r.2, [sessionError "Anfrage nicht gefunden"])
      | some treq =>
        if s.text = "" then (r.2, [sessionError "Kein Text zum Übersetzen"])
        else if s.keys.ai = "" then
          let markApproved := fun (q : TranslationRequest) =>
            { q with status := "approved_no_translation" }
          (aupdate r.2 codeN (fun s' =>
             { s' with translation_requests := aupdate s'.translation_requests stSid markApproved }),
           [⟨"translation_approved", JVal.jobj [("language", JVal.jstr treq.language),
             ("translated_text", JVal.jnull), ("layout", JVal.jstr layoutV),
             ("message", JVal.jstr "Übersetzung genehmigt, aber kein AI-Key für automatische Übersetzung konfiguriert.")],
             some stSid⟩])
        else
          match translate s.text treq.language s.keys.ai s.keys.ai_provider with
          | Except.ok translated =>
            let record := fun (q : TranslationRequest) =>
              { q with status := "approved", translated_text := some translated }
            (aupdate r.2 codeN (fun s' =>
               { s' with translation_requests := aupdate s'.translation_requests stSid record }),
             [⟨"translation_approved", JVal.jobj [("language", JVal.jstr treq.language),
               ("language_name", JVal.jstr (languageName treq.language)),
               ("translated_text", JVal.jstr translated), ("layout", JVal.jstr layoutV)],
               some stSid⟩,
              ⟨"translation_sent", JVal.jobj [("student_sid", JVal.jstr stSid),
               ("anonymous_id", JVal.jstr treq.anonymous_id),
               ("success", JVal.jbool true)], none⟩])
          | Except.error e =>
            (r.2, [sessionError ("Übersetzungsfehler: " ++ e)])

/-- WebSocket `teacher_deny_translation` (`handle_teacher_deny_translation`). -/
def handle_teacher_deny_translation (reg : Registry) (now : Nat) (sid : String)
    (code student_sid : Option String) : Registry × List Emit :=
  let codeN := normCode (code.getD "")
  let stSid := student_sid.getD ""
  let r := get_session reg now codeN
  match r.1 with
  | none => (r.2, [sessionError "Keine Berechtigung"])
  | some s =>
    if s.teacher_sid ≠ some sid then (r.2, [sessionError "Keine Berechtigung"])
    else
      let markDenied := fun (q : TranslationRequest) => { q with status := "denied" }
      let reg2 := aupdate r.2 codeN (fun s' =>
        { s' with translation_requests := aupdate s'.translation_requests stSid markDenied })
      let anonId := match alookup s.translation_requests stSid with
        | some q => q.anonymous_id
        | none => ""
      (reg2, [⟨"translation_denied",
        JVal.jobj [("message", JVal.jstr "Deine Übersetzungsanfrage wurde abgelehnt.")],
        some stSid⟩,
        ⟨"translation_request_removed", JVal.jobj [("student_sid", JVal.jstr stSid),
         ("anonymous_id", JVal.jstr anonId)], none⟩])

/-- WebSocket `teacher_toggle_simplification` (`handle_teacher_toggle_simplification`). -/
def handle_teacher_toggle_simplification (reg : Registry) (now : Nat) (sid : String)
    (code : Option String) (enabled : Option Bool) : Registry × List Emit :=
  let codeN := normCode (code.getD "")
  let enabledV := enabled.getD false
  let r := get_session reg now codeN
  match r.1 with
  | none => (r.2, [sessionError "Keine Berechtigung"])
  | some s =>
    if s.teacher_sid ≠ some sid then (r.2, [sessionError "Keine Berechtigung"])
    else
      (aupdate r.2 codeN (fun s' => { s' with simplification_enabled := enabledV }),
       [⟨"simplification_status_changed", JVal.jobj [("enabled", JVal.jbool enabledV)],
         some codeN⟩])

/-- WebSocket `student_using_simplified` (`handle_student_using_simplified`). -/
def handle_student_using_simplified (reg : Registry) (now : Nat) (sid : String)
    (code level : Option String) : Registry × List Emit :=
  let codeN := normCode (code.getD "")
  let levelV := level.getD "original"
  let r := get_session reg now codeN
  match r.1 with
  | none => (r.2, [])
  | some s =>
    let anonId : Option String := match alookup s.students sid with
      | some st => some st.anonymous_id
      | none => none
    let lv : StudentLevel := { level := levelV, anonymous_id := anonId, timestamp := now }
    let reg2 := aupdate r.2 codeN
      (fun s' => { s' with student_levels := aset s'.student_levels sid lv })
    let toTeacher := match s.teacher_sid with
      | some tsid =>
        [⟨"student_level_update", JVal.jobj [("student_sid", JVal.jstr sid),
          ("anonymous_id", match anonId with | some a => JVal.jstr a | none => JVal.jnull),
          ("level", JVal.jstr levelV)], some tsid⟩]
      | none => []
    (reg2, toTeacher)

/-- WebSocket `disconnect` (`handle_disconnect`): remove the connection from
every session's student map and notify each affected session's teacher with
the updated headcount. -/
def handle_disconnect (reg : Registry) (sid : String) : Registry × List Emit :=
  (reg.map (fun p =>
     if amem p.2.students sid then (p.1, { p.2 with students := aerase p.2.students sid })
     else p),
   reg.foldr (fun p acc =>
     if amem p.2.students sid then
       (match p.2.teacher_sid with
        | some tsid =>
          [⟨"student_left", JVal.jobj [("count", JVal.jnum (aerase p.2.students sid).length)],
            some tsid⟩]
        | none => []) ++ acc
     else acc) [])

mutual

/-- String leaves of a serialized JSON value (the strings an observer of the
payload can read). -/
def jstrings : JVal → List String
  | JVal.jnull => []
  | JVal.jbool _ => []
  | JVal.jnum _ => []
  | JVal.jstr s => [s]
  | JVal.jarr xs => jstringsArr xs
  | JVal.jobj fs => jstringsObj fs

/-- String leaves of a JSON array's elements. -/
def jstringsArr : List JVal → List String
  | [] => []
  | v :: vs => jstrings v ++ jstringsArr vs

/-- String leaves of a JSON object's values. -/
def jstringsObj : List (String × JVal) → List String
  | [] => []
  | (_, v) :: fs => jstrings v ++ jstringsObj fs

end

/-- String leaves across a list of emits. -/
def emitsStrings (es : List Emit) : List String :=
  es.foldr (fun e acc => jstrings e.payload ++ acc) []

/-- Strings stored in one student record that handlers may serialize. -/
def studentStrings (st : Student) : List String :=
  [st.animal_emoji, st.animal_name, st.anonymous_id] ++
  (match st.name with | some n => [n] | none => [])

/-- Strings stored in (or derived from) one translation-request record that
handlers may serialize. -/
def treqStrings (q : TranslationRequest) : List String :=
  [q.language, q.language_name, languageName q.language, q.status, q.anonymous_id] ++
  (match q.translated_text with | some t => [t] | none => [])

/-- Strings stored in one reading-level record that handlers may serialize. -/
def levelStrings (lv : StudentLevel) : List String :=
  [lv.level] ++ (match lv.anonymous_id with | some a => [a] | none => [])

/-- Every non-API-key string of a session that some response or broadcast may
legitimately serialize.  The provider API keys (`keys.elevenlabs`, `keys.ai`)
are deliberately NOT in this list; the voice/STT identifiers are (the
session-settings endpoint serializes them). -/
def sessionPublicStrings (s : Session) : List String :=
  [s.text] ++ s.settings.map Prod.fst ++ s.settings.map Prod.snd ++ s.tasks ++
  (s.students.map (fun p => studentStrings p.2)).flatten ++
  (s.translation_requests.map (fun p => treqStrings p.2)).flatten ++
  (s.student_levels.map (fun p => levelStrings p.2)).flatten ++
  [s.keys.voice_id, s.keys.stt_provider.getD "browser"]

/-- The literal strings baked into the session/real-time surface (messages,
defaults, fallback identities). -/
def apiConstStrings : List String :=
  ["", "ElevenLabs API Key erforderlich", "code generation failed",
   "Session nicht gefunden", "Session nicht gefunden oder abgelaufen",
   "Die Session wurde beendet.", "Die Session wurde vom Lehrer beendet.",
   "Keine Berechtigung", "Keine Berechtigung oder Session nicht gefunden",
   "Anfrage nicht gefunden", "Kein Text zum Übersetzen",
   "Übersetzung genehmigt, aber kein AI-Key für automatische Übersetzung konfiguriert.",
   "Deine Übersetzungsanfrage wurde abgelehnt.",
   "🐾 Gast", "🐾", "Gast", "Anonym", "browser", "side-by-side", "original"]

/-- A concrete credential bundle used for the counterexamples and witnesses. -/
def demoKeys : Keys :=
  { elevenlabs := "EL-API-KEY-SECRET-11", ai := "AI-API-KEY-SECRET-22",
    ai_provider := "openai", voice_id := "VOICE-SECRET-77", stt_provider := some "scribe" }

/-- A concrete live session owned by connection `TEACH`. -/
def demoSession : Session :=
  { keys := demoKeys, teacher_sid := some "TEACH", created := 0, expires := 100,
    students := [], text := "Hallo Welt", pin := "", tasks := [],
    tasks_available := false, translation_requests := [],
    simplification_enabled := false, student_levels := [], settings := [] }

/-- A registry holding exactly the demo session under code `ABC123`. -/
def demoReg : Registry := [("ABC123", demoSession)]

/-- The demo session with its TTL already elapsed at instant 100. -/
def demoExpired : Session := { demoSession with expires := 100 }

theorem alookup_append_of_none {β : Type} {l : List (String × β)} {k : String}
    (h : alookup l k = none) (m : List (String × β)) :
    alookup (l ++ m) k = alookup m k := by
  induction l with
  | nil => simp
  | cons hd tl ih =>
    obtain ⟨a, b⟩ := hd
    by_cases hak : a = k
    · simp [alookup, hak] at h
    · simp [alookup, hak] at h ⊢
      exact ih h

theorem alookup_append_of_some {β : Type} {l : List (String × β)} {k : String} {v : β}
    (h : alookup l k = some v) (m : List (String × β)) :
    alookup (l ++ m) k = some v := by
  induction l with
  | nil => simp [alookup] at h
  | cons hd tl ih =>
    obtain ⟨a, b⟩ := hd
    by_cases hak : a = k
    · simp [alookup, hak] at h ⊢
      exact h
    · simp [alookup, hak] at h ⊢
      exact ih h

theorem alookup_eq_none_iff_akeys {β : Type} (l : List (String × β)) (k : String) :
    alookup l k = none ↔ k ∉ akeys l := by
  induction l with
  | nil => simp [alookup, akeys]
  | cons hd tl ih =>
    obtain ⟨a, b⟩ := hd
    by_cases hak : a = k
    · subst hak
      simp [alookup, akeys]
    · simp only [alookup, if_neg hak, akeys, List.map_cons, List.mem_cons, not_or]
      rw [ih]
      exact ⟨fun h => ⟨fun he => hak he.symm, h⟩, fun h => h.2⟩

theorem mem_akeys_exists {β : Type} {l : List (String × β)} {k : String}
    (h : k ∈ akeys l) : ∃ v, alookup l k = some v := by
  rcases ho : alookup l k with _ | v
  · exact absurd h ((alookup_eq_none_iff_akeys l k).mp ho)
  · exact ⟨v, rfl⟩

theorem alookup_aerase_self {β : Type} (l : List (String × β)) (k : String) :
    alookup (aerase l k) k = none := by
  induction l with
  | nil => rfl
  | cons hd tl ih =>
    obtain ⟨a, b⟩ := hd
    by_cases hak : a = k
    · simpa [aerase, List.filter_cons, hak] using ih
    · simpa [aerase, List.filter_cons, hak, alookup] using ih

theorem alookup_aerase_ne {β : Type} (l : List (String × β)) {k k' : String}
    (hne : k' ≠ k) : alookup (aerase l k) k' = alookup l k' := by
  induction l with
  | nil => rfl
  | cons hd tl ih =>
    obtain ⟨a, b⟩ := hd
    by_cases hak : a = k
    · have hak' : a ≠ k' := by
        intro h
        exact hne (h.symm.trans hak)
      have hdrop : aerase ((a, b) :: tl) k = aerase tl k := by
        simp [aerase, List.filter_cons, hak]
      rw [hdrop, ih]
      simp [alookup, hak']
    · have hkeep : aerase ((a, b) :: tl) k = (a, b) :: aerase tl k := by
        simp [aerase, List.filter_cons, hak]
      rw [hkeep]
      by_cases hak' : a = k'
      · simp [alookup, hak']
      · simp [alookup, hak', ih]

theorem aerase_length_le {β : Type} (l : List (String × β)) (k : String) :
    (aerase l k).length ≤ l.length :=
  List.length_filter_le _ l

theorem aerase_length_lt {β : Type} {l : List (String × β)} {k : String} {v : β}
    (h : alookup l k = some v) : (aerase l k).length < l.length := by
  induction l with
  | nil => simp [alookup] at h
  | cons hd tl ih =>
    obtain ⟨a, b⟩ := hd
    by_cases hak : a = k
    · have h1 : aerase ((a, b) :: tl) k = aerase tl k := by
        simp [aerase, List.filter_cons, hak]
      have h2 : (aerase tl k).length ≤ tl.length := aerase_length_le tl k
      rw [h1]
      simp only [List.length_cons]
      omega
    · simp only [alookup, if_neg hak] at h
      have h1 : aerase ((a, b) :: tl) k = (a, b) :: aerase tl k := by
        simp [aerase, List.filter_cons, hak]
      have h2 := ih h
      rw [h1]
      simp only [List.length_cons]
      omega

theorem akeys_aupdate {β : Type} (l : List (String × β)) (k : String) (f : β → β) :
    akeys (aupdate l k f) = akeys l := by
  induction l with
  | nil => rfl
  | cons hd tl ih =>
    obtain ⟨a, b⟩ := hd
    by_cases hak : a = k
    · simp [aupdate, akeys, hak] at ih ⊢
      exact ih
    · simp [aupdate, akeys, hak] at ih ⊢
      exact ih

theorem alookup_aupdate_of_none {β : Type} {l : List (String × β)} {k' : String}
    (k : String) (f : β → β) (h : alookup l k' = none) :
    alookup (aupdate l k f) k' = none := by
  rw [alookup_eq_none_iff_akeys] at h ⊢
  rwa [akeys_aupdate]

theorem alookup_filter_of_none {β : Type} {l : List (String × β)} {k : String}
    (p : String × β → Bool) (h : alookup l k = none) :
    alookup (l.filter p) k = none := by
  induction l with
  | nil => rfl
  | cons hd tl ih =>
    obtain ⟨a, b⟩ := hd
    by_cases hak : a = k
    · simp [alookup, hak] at h
    · by_cases hp : p (a, b)
      · simp [List.filter_cons, hp, alookup, hak] at h ⊢
        exact ih h
      · simp [List.filter_cons, hp, alookup, hak] at h ⊢
        exact ih h

theorem getD_mem_of_lt {γ : Type} (l : List γ) (n : Nat) (d : γ) (h : n < l.length) :
    l.getD n d ∈ l := by
  induction l generalizing n with
  | nil => simp at h
  | cons a t ih =>
    cases n with
    | zero => simp
    | succ m =>
      simp only [List.getD_cons_succ, List.mem_cons]
      right
      exact ih m (by simpa using Nat.lt_of_succ_lt_succ h)

/-- C3 (counterexample): the character pool of `generate_session_code` has 32
characters, not the 33 the claim states (digits 0 AND 1 are dropped alongside
letters O and I). -/
theorem c3_counterexample_alphabet_size :
    sessionCodeChars.length = 32 ∧ sessionCodeChars.length ≠ 33 := by
  constructor <;> decide

/-- C3 (amended): every generated session code has exactly 6 characters, each
drawn from the fixed 32-character alphabet: the 26 uppercase letters minus the
ambiguous O and I, followed by the 10 digits minus the ambiguous 0 and 1. -/
theorem c3_code_length_and_alphabet (pick : Nat → Nat) :
    (sampleCode pick).toList.length = 6 ∧
    (∀ ch ∈ (sampleCode pick).toList, ch ∈ sessionCodeChars) ∧
    sessionCodeChars.length = 32 ∧
    sessionCodeChars =
      "ABCDEFGHIJKLMNOPQRSTUVWXYZ".toList.filter (fun ch => ch != 'O' && ch != 'I') ++
      "0123456789".toList.filter (fun ch => ch != '0' && ch != '1') := by
  refine ⟨rfl, ?_, by decide, by decide⟩
  intro ch hch
  have hlist : (sampleCode pick).toList =
      (List.range SESSION_CODE_LENGTH).map
        (fun i => sessionCodeChars.getD (pick i % sessionCodeChars.length) 'A') := rfl
  rw [hlist] at hch
  obtain ⟨i, _, rfl⟩ := List.mem_map.mp hch
  exact getD_mem_of_lt _ _ _ (Nat.mod_lt _ (by decide))

/-- C8 (code bug): the source's cleanup loop has no exception handler, so a
sweep iteration that raises kills the daemon thread: over a 5-interval horizon
a loop whose very first sweep raises executes exactly 1 iteration and records
the escaped exception, while a healthy loop executes all 5.  The claim (and the
spec) require the failing loop to keep running on the next interval. -/
theorem c8_sweep_exception_terminates_loop :
    session_cleanup_thread_run (fun _ => Except.error "sweep failure") 5 0 =
      (1, some "sweep failure") ∧
    session_cleanup_thread_run (fun _ => Except.ok ()) 5 0 = (5, none) :=
  ⟨rfl, rfl⟩

/-- C10: calling the identity allocator with a session code that is not in the
registry returns index 0 with the first catalogue entry (🦊, Fuchs) instead of
failing. -/
theorem c10_unknown_session_defaults_to_fuchs (reg : Registry) (code sid : String)
    (randPick : Nat) (h : alookup reg code = none) :
    get_anonymous_name reg code sid randPick = (0, ("🦊", "Fuchs")) := by
  simp [get_anonymous_name, h]
  rfl

/-- C10 witness: concrete run on the empty registry. -/
theorem c10_unknown_session_defaults_to_fuchs_witness :
    alookup ([] : Registry) "ZZZZZZ" = none ∧
    get_anonymous_name [] "ZZZZZZ" "sid1" 5 = (0, ("🦊", "Fuchs")) :=
  ⟨rfl, c10_unknown_session_defaults_to_fuchs [] "ZZZZZZ" "sid1" 5 rfl⟩

theorem cachePut_existing {α : Type} (N : Nat) {c : Cache α} {k : String} {v₀ : α}
    (h : alookup c k = some v₀) (v₁ : α) :
    cachePut N c k v₁ = aerase c k ++ [(k, v₀)] := by
  simp [cachePut, amem, h, move_to_end]

theorem alookup_erase_append_self {α : Type} {c : Cache α} (k : String) (v₀ : α) :
    alookup (aerase c k ++ [(k, v₀)]) k = some v₀ := by
  rw [alookup_append_of_none (alookup_aerase_self c k)]
  simp [alookup]

/-- C9: on both caches, a `put` for a key that is already present only refreshes
recency and leaves the stored value unchanged, so a later lookup/`get` returns
the originally stored value, not the one supplied by the later `put`. -/
theorem c9_put_existing_preserves_value {α : Type} (c : Cache α) (tc : Cache String)
    (k : String) (v₀ v₁ : α) (w₁ : String) (wtc : String)
    (h : alookup c k = some v₀) (ht : alookup tc k = some wtc) :
    alookup (add_to_cache c k v₁) k = some v₀ ∧
    (get_from_cache (add_to_cache c k v₁) k).1 = some v₀ ∧
    alookup (add_to_translation_cache tc k w₁) k = some wtc ∧
    (get_from_translation_cache (add_to_translation_cache tc k w₁) k).1 = some wtc := by
  have h1 : alookup (add_to_cache c k v₁) k = some v₀ := by
    rw [add_to_cache, cachePut_existing _ h]
    exact alookup_erase_append_self k v₀
  have h2 : alookup (add_to_translation_cache tc k w₁) k = some wtc := by
    rw [add_to_translation_cache, cachePut_existing _ ht]
    exact alookup_erase_append_self k wtc
  exact ⟨h1, by simp [get_from_cache, cacheGet, h1], h2,
    by simp [get_from_translation_cache, cacheGet, h2]⟩

/-- C9 witness: concrete caches holding `k ↦` old values; the later puts with
new values do not overwrite. -/
theorem c9_put_existing_preserves_value_witness :
    alookup [("K", (1 : Nat))] "K" = some 1 ∧
    alookup (add_to_cache [("K", (1 : Nat))] "K" 2) "K" = some 1 ∧
    alookup (add_to_translation_cache [("K", "old")] "K" "new") "K" = some "old" :=
  ⟨rfl,
   (c9_put_existing_preserves_value [("K", 1)] [("K", "old")] "K" 1 2 "new" "old"
      rfl rfl).1,
   (c9_put_existing_preserves_value [("K", 1)] [("K", "old")] "K" 1 2 "new" "old"
      rfl rfl).2.2.1⟩

theorem amem_false_iff {β : Type} (l : List (String × β)) (k : String) :
    amem l k = false ↔ alookup l k = none := by
  simp only [amem]
  rcases alookup l k with _ | v <;> simp

theorem generate_session_code_not_present (reg : Registry) (stream : Nat → Nat → Nat) :
    ∀ (fuel i : Nat) (code : String),
      generate_session_code reg stream fuel i = some code →
      amem reg code = false ∧ ∃ j, code = sampleCode (stream j) := by
  intro fuel
  induction fuel with
  | zero =>
    intro i code h
    simp [generate_session_code] at h
  | succ n ih =>
    intro i code h
    simp only [generate_session_code] at h
    by_cases hm : amem reg (sampleCode (stream i)) = true
    · rw [if_pos hm] at h
      exact ih (i + 1) code h
    · rw [if_neg hm] at h
      injection h with h'
      subst h'
      exact ⟨Bool.not_eq_true _ ▸ hm, i, rfl⟩

/-- C4: `create_session` returns a code that fails the plain key-membership
check against the registry at generation time (an expired-but-unswept entry is
still a key, hence counts as present), inserts the fresh session under that
code with expiry `now + SESSION_TIMEOUT_HOURS`, and preserves pairwise
distinctness of the registry's codes. -/
theorem c4_create_fresh_code_ttl_and_distinct (reg : Registry) (now : Nat)
    (t : Option String) (keys : Keys) (pin : String) (stream : Nat → Nat → Nat)
    (fuel : Nat) (code : String) (reg' : Registry)
    (h : create_session reg now t keys pin stream fuel = some (code, reg')) :
    amem reg code = false ∧
    reg' = reg ++ [(code, mkSession t keys pin now)] ∧
    alookup reg' code = some (mkSession t keys pin now) ∧
    (mkSession t keys pin now).expires = now + SESSION_TIMEOUT_HOURS ∧
    ((akeys reg).Nodup → (akeys reg').Nodup) := by
  simp only [create_session] at h
  rcases hg : generate_session_code reg stream fuel 0 with _ | c
  · rw [hg] at h
    simp at h
  · rw [hg] at h
    simp only [Option.some.injEq, Prod.mk.injEq] at h
    obtain ⟨hc, hr⟩ := h
    subst code
    subst reg'
    obtain ⟨hmem, -⟩ := generate_session_code_not_present reg stream fuel 0 c hg
    have hnone : alookup reg c = none := (amem_false_iff reg c).mp hmem
    refine ⟨hmem, rfl, ?_, rfl, ?_⟩
    · rw [alookup_append_of_none hnone]
      simp [alookup]
    · intro hnd
      have hnotin : c ∉ akeys reg := (alookup_eq_none_iff_akeys reg c).mp hnone
      have hk : akeys (reg ++ [(c, mkSession t keys pin now)]) = akeys reg ++ [c] := by
        simp [akeys]
      rw [hk, List.nodup_append]
      refine ⟨hnd, List.nodup_singleton c, ?_⟩
      intro a ha hb
      simp only [List.mem_singleton] at hb
      subst hb
      exact hnotin ha

/-- C4 witness: creating against the empty registry with constant randomness
yields code `AAAAAA` and inserts it with the fixed TTL. -/
theorem c4_create_fresh_code_ttl_and_distinct_witness :
    create_session [] 0 none demoKeys "" (fun _ _ => 0) 1 =
      some ("AAAAAA", [("AAAAAA", mkSession none demoKeys "" 0)]) ∧
    amem ([] : Registry) "AAAAAA" = false ∧
    alookup [("AAAAAA", mkSession none demoKeys "" 0)] "AAAAAA" =
      some (mkSession none demoKeys "" 0) := by
  have h := c4_create_fresh_code_ttl_and_distinct [] 0 none demoKeys "" (fun _ _ => 0) 1
    "AAAAAA" [("AAAAAA", mkSession none demoKeys "" 0)] (by decide)
  exact ⟨by decide, h.1, h.2.2.1⟩

theorem get_session_preserves_none {reg : Registry} {now : Nat} {c : String}
    {code : String} (h : alookup reg code = none) :
    alookup (get_session reg now c).2 code = none := by
  rcases hl : alookup reg c with _ | s
  · simpa [get_session, hl] using h
  · by_cases ht : now < s.expires
    · simpa [get_session, hl, ht] using h
    · simp only [get_session, hl, if_neg ht]
      by_cases hcc : code = c
      · subst hcc
        exact alookup_aerase_self reg code
      · rw [alookup_aerase_ne reg hcc]
        exact h

theorem end_session_preserves_none {reg : Registry} {c : String} {code : String}
    (h : alookup reg code = none) :
    alookup (end_session reg c).2 code = none := by
  by_cases hm : amem reg c = true
  · simp only [end_session, if_pos hm]
    by_cases hcc : code = c
    · subst hcc
      exact alookup_aerase_self reg code
    · rw [alookup_aerase_ne reg hcc]
      exact h
  · simpa [end_session, if_neg hm] using h

theorem add_student_preserves_none {reg : Registry} {now : Nat} {c sid : String}
    {nm : Option String} {rp : Nat} {code : String} (h : alookup reg code = none) :
    alookup (add_student_to_session reg now c sid nm rp).2 code = none := by
  simp only [add_student_to_session]
  rcases hl : alookup reg c with _ | s
  · simpa using h
  · simp only []
    exact alookup_aupdate_of_none _ _ h

theorem remove_student_preserves_none {reg : Registry} {c sid : String}
    {code : String} (h : alookup reg code = none) :
    alookup (remove_student_from_session reg c sid).2 code = none := by
  simp only [remove_student_from_session]
  rcases hl : alookup reg c with _ | s
  · simpa using h
  · by_cases hm : amem s.students sid = true
    · simp only [if_pos hm]
      exact alookup_aupdate_of_none _ _ h
    · simpa [if_neg hm] using h

/-- C5: `get_session` returns a session exactly when the code is bound and
`now < expires`; an expired hit is deleted as a side effect, the lookup reports
absence, and the code stays absent under every further non-creating registry
operation (lookups, explicit termination, sweeps, participant changes) until a
`create` re-inserts it. -/
theorem c5_lookup_expiry_and_deletion (reg : Registry) (now : Nat) (code : String) :
    (∀ s : Session, (get_session reg now code).1 = some s ↔
        (alookup reg code = some s ∧ now < s.expires)) ∧
    (∀ s : Session, alookup reg code = some s → s.expires ≤ now →
      (get_session reg now code).1 = none ∧
      alookup (get_session reg now code).2 code = none ∧
      (∀ now', (get_session (get_session reg now code).2 now' code).1 = none) ∧
      (∀ now' c', alookup (get_session (get_session reg now code).2 now' c').2 code = none) ∧
      (∀ c', alookup (end_session (get_session reg now code).2 c').2 code = none) ∧
      (∀ now', alookup (cleanup_expired_sessions (get_session reg now code).2 now') code = none) ∧
      (∀ now' c' sid nm rp,
        alookup (add_student_to_session (get_session reg now code).2 now' c' sid nm rp).2 code = none) ∧
      (∀ c' sid,
        alookup (remove_student_from_session (get_session reg now code).2 c' sid).2 code = none)) := by
  constructor
  · intro s
    rcases hl : alookup reg code with _ | s'
    · simp [get_session, hl]
    · by_cases ht : now < s'.expires
      · simp only [get_session, hl, if_pos ht]
        constructor
        · intro he
          have hss : s' = s := by injection he
          exact ⟨he, hss ▸ ht⟩
        · exact fun hp => hp.1
      · simp only [get_session, hl, if_neg ht]
        constructor
        · intro he
          exact absurd he (by simp)
        · rintro ⟨h1, h2⟩
          injection h1 with h1'
          subst h1'
          exact absurd h2 ht
  · intro s hl hexp
    have hnotlt : ¬ now < s.expires := by omega
    have hpost : (get_session reg now code).2 = aerase reg code := by
      simp [get_session, hl, hnotlt]
    have h1 : (get_session reg now code).1 = none := by
      simp [get_session, hl, hnotlt]
    have habs : alookup (get_session reg now code).2 code = none := by
      rw [hpost]
      exact alookup_aerase_self reg code
    refine ⟨h1, habs, ?_, ?_, ?_, ?_, ?_, ?_⟩
    · intro now'
      rw [hpost]
      simp [get_session, alookup_aerase_self]
    · intro now' c'
      exact get_session_preserves_none habs
    · intro c'
      exact end_session_preserves_none habs
    · intro now'
      exact alookup_filter_of_none _ habs
    · intro now' c' sid nm rp
      exact add_student_preserves_none habs
    · intro c' sid
      exact remove_student_preserves_none habs

/-- C5 witness: a concrete expired session is reported absent and physically
deleted by the lookup. -/
theorem c5_lookup_expiry_and_deletion_witness :
    alookup [("ABC123", demoExpired)] "ABC123" = some demoExpired ∧
    (get_session [("ABC123", demoExpired)] 100 "ABC123").1 = none ∧
    alookup (get_session [("ABC123", demoExpired)] 100 "ABC123").2 "ABC123" = none := by
  have h := (c5_lookup_expiry_and_deletion [("ABC123", demoExpired)] 100 "ABC123").2
    demoExpired rfl (by decide)
  exact ⟨rfl, h.1, h.2.1⟩

theorem move_to_end_length_le {α : Type} (c : Cache α) (k : String) :
    (move_to_end c k).length ≤ c.length := by
  simp only [move_to_end]
  rcases hl : alookup c k with _ | v
  · exact le_refl _
  · have := aerase_length_lt hl
    simp only [List.length_append, List.length_singleton]
    omega

theorem cacheGet_length_le {α : Type} (c : Cache α) (k : String) :
    ((cacheGet c k).2).length ≤ c.length := by
  simp only [cacheGet]
  rcases hl : alookup c k with _ | v <;> simp only [hl]
  · exact le_refl _
  · exact move_to_end_length_le c k

theorem cachePut_length_le {α : Type} (N : Nat) (c : Cache α) (k : String) (v : α)
    (hN : 0 < N) (hc : c.length ≤ N) : (cachePut N c k v).length ≤ N := by
  simp only [cachePut]
  by_cases hm : amem c k = true
  · rw [if_pos hm]
    exact le_trans (move_to_end_length_le c k) hc
  · rw [if_neg hm]
    by_cases hcap : N ≤ c.length
    · rw [if_pos hcap]
      have heq : c.length = N := le_antisymm hc hcap
      simp only [List.length_append, List.length_singleton, List.length_drop]
      omega
    · rw [if_neg hcap]
      simp only [List.length_append, List.length_singleton]
      omega

theorem runCacheOps_length_le {α : Type} (N : Nat) (hN : 0 < N) :
    ∀ (ops : List (CacheOp α)) (c : Cache α), c.length ≤ N →
      (runCacheOps N c ops).length ≤ N := by
  intro ops
  induction ops with
  | nil =>
    intro c hc
    exact hc
  | cons op rest ih =>
    intro c hc
    cases op with
    | get k =>
      simp only [runCacheOps]
      exact ih _ (le_trans (cacheGet_length_le c k) hc)
    | put k v =>
      simp only [runCacheOps]
      exact ih _ (cachePut_length_le N c k v hN hc)

/-- C6: for a cache of capacity `N` (instantiated at 500 and 1000 by the two
stores): (a) no get/put sequence from the empty store ever exceeds `N` entries;
(b) a put of a fresh key at capacity drops exactly the head — the
least-recently-accessed entry — keeping every other key and adding the new one;
(c) both a get hit and a put of an existing key move that key to the
most-recent position, which is what makes the head the least recently accessed
entry. -/
theorem c6_lru_capacity_eviction_recency {α : Type} (N : Nat) (hN : 0 < N) :
    (∀ ops : List (CacheOp α), (runCacheOps N [] ops).length ≤ N) ∧
    (∀ (c : Cache α) (k : String) (v : α) (p : String × α) (t : Cache α),
       (akeys c).Nodup → c.length = N → amem c k = false → c = p :: t →
       cachePut N c k v = t ++ [(k, v)] ∧
       alookup (cachePut N c k v) p.1 = none ∧
       alookup (cachePut N c k v) k = some v ∧
       (∀ k', k' ∈ akeys c → k' ≠ p.1 → amem (cachePut N c k v) k' = true)) ∧
    (∀ (c : Cache α) (k : String) (v₀ : α),
       alookup c k = some v₀ →
       (cacheGet c k).1 = some v₀ ∧
       (cacheGet c k).2 = aerase c k ++ [(k, v₀)] ∧
       (∀ v₁, cachePut N c k v₁ = aerase c k ++ [(k, v₀)])) := by
  refine ⟨fun ops => runCacheOps_length_le N hN ops [] (by simp), ?_, ?_⟩
  · rintro c k v ⟨a, b⟩ t hWF hlen hmem hcons
    subst hcons
    have hknone : alookup ((a, b) :: t) k = none := (amem_false_iff _ k).mp hmem
    have hak : ¬ a = k := by
      intro hh
      simp [alookup, hh] at hknone
    have hkt : alookup t k = none := by
      simpa [alookup, hak] using hknone
    have hWF' : a ∉ akeys t ∧ (akeys t).Nodup := by
      have hkform : akeys ((a, b) :: t) = a :: akeys t := by simp [akeys]
      rw [hkform, List.nodup_cons] at hWF
      exact hWF
    have hat : alookup t a = none := (alookup_eq_none_iff_akeys t a).mpr hWF'.1
    have hNle : N ≤ ((a, b) :: t).length := by rw [hlen]
    have hput : cachePut N ((a, b) :: t) k v = t ++ [(k, v)] := by
      simp only [cachePut]
      rw [if_neg (by simp [hmem]), if_pos hNle]
      simp
    refine ⟨hput, ?_, ?_, ?_⟩
    · rw [hput, alookup_append_of_none hat]
      have hka : ¬ k = a := fun hh => hak hh.symm
      simp [alookup, hka]
    · rw [hput, alookup_append_of_none hkt]
      simp [alookup]
    · intro k' hk' hk'ne
      simp only [akeys, List.map_cons, List.mem_cons] at hk'
      rcases hk' with hk' | hk'
      · exact absurd hk' hk'ne
      · obtain ⟨w, hw⟩ := mem_akeys_exists hk'
        rw [hput]
        simp [amem, alookup_append_of_some hw]
  · intro c k v₀ h
    refine ⟨?_, ?_, fun v₁ => cachePut_existing N h v₁⟩
    · simp [cacheGet, h]
    · simp [cacheGet, h, move_to_end]

/-- C6 witness: with capacity 2, inserting a third distinct key evicts exactly
the head key `a`, and a put on the existing key `a` refreshes its recency
keeping its value. -/
theorem c6_lru_capacity_eviction_recency_witness :
    (0 : Nat) < 2 ∧
    cachePut 2 [("a", (1 : Nat)), ("b", 2)] "c" 3 = [("b", 2), ("c", 3)] ∧
    cachePut 2 [("a", (1 : Nat)), ("b", 2)] "a" 9 = [("b", 2), ("a", 1)] := by
  refine ⟨by decide, ?_, ?_⟩
  · exact ((c6_lru_capacity_eviction_recency 2 (by decide)).2.1 [("a", 1), ("b", 2)]
      "c" 3 ("a", 1) [("b", 2)] (by decide) rfl (by decide) rfl).1
  · exact ((c6_lru_capacity_eviction_recency 2 (by decide)).2.2 [("a", 1), ("b", 2)]
      "a" 1 rfl).2.2 9

theorem contains_nat_iff (l : List Nat) (n : Nat) : l.contains n = true ↔ n ∈ l := by
  simp

theorem firstFreeAux_finds_least (used : List Nat) :
    ∀ (fuel start i : Nat), start ≤ i → i < start + fuel → i ∉ used →
      (∀ j, start ≤ j → j < i → j ∈ used) →
      firstFreeAux used fuel start = some i := by
  intro fuel
  induction fuel with
  | zero =>
    intro start i h1 h2 h3 h4
    omega
  | succ n ih =>
    intro start i h1 h2 h3 h4
    simp only [firstFreeAux]
    by_cases hc : used.contains start = true
    · rw [if_pos hc]
      have hmem : start ∈ used := (contains_nat_iff used start).mp hc
      have hsi : start ≠ i := fun hh => h3 (hh ▸ hmem)
      exact ih (start + 1) i (by omega) (by omega) h3 (fun j hj1 hj2 => h4 j (by omega) hj2)
    · rw [if_neg hc]
      have hnot : start ∉ used := fun hh => hc ((contains_nat_iff used start).mpr hh)
      have heq : start = i := by
        by_contra hne
        exact hnot (h4 start (le_refl _) (by omega))
      rw [heq]

theorem firstFreeAux_none (used : List Nat) :
    ∀ (fuel start : Nat), (∀ j, start ≤ j → j < start + fuel → j ∈ used) →
      firstFreeAux used fuel start = none := by
  intro fuel
  induction fuel with
  | zero =>
    intro start h
    rfl
  | succ n ih =>
    intro start h
    simp only [firstFreeAux]
    rw [if_pos ((contains_nat_iff used start).mpr (h start (le_refl _) (by omega)))]
    exact ih (start + 1) (fun j h1 h2 => h j (by omega) (by omega))

/-- C7: for a session in the registry, the allocator returns the lowest
catalogue index (out of the 28) not assigned to a current participant together
with that entry; when every index is assigned it returns the pseudo-randomly
picked entry with the label suffixed by (participant count + 1); it is a total
function, so the join never fails. -/
theorem c7_allocator_lowest_free_or_suffixed_fallback (reg : Registry)
    (code sid : String) (randPick : Nat) (s : Session)
    (hs : alookup reg code = some s) :
    ANONYMOUS_ANIMALS.length = 28 ∧
    (∀ i : Nat, i < ANONYMOUS_ANIMALS.length →
      i ∉ s.students.map (fun p => p.2.animal_index) →
      (∀ j, j < i → j ∈ s.students.map (fun p => p.2.animal_index)) →
      get_anonymous_name reg code sid randPick = (i, ANONYMOUS_ANIMALS.getD i ("", ""))) ∧
    ((∀ i, i < ANONYMOUS_ANIMALS.length → i ∈ s.students.map (fun p => p.2.animal_index)) →
      get_anonymous_name reg code sid randPick =
        (randPick % ANONYMOUS_ANIMALS.length,
         ((ANONYMOUS_ANIMALS.getD (randPick % ANONYMOUS_ANIMALS.length) ("", "")).1,
          (ANONYMOUS_ANIMALS.getD (randPick % ANONYMOUS_ANIMALS.length) ("", "")).2 ++
            " " ++ toString (s.students.length + 1)))) := by
  refine ⟨by decide, ?_, ?_⟩
  · intro i hi hnot hall
    have hf : firstFreeAux (s.students.map (fun p => p.2.animal_index))
        ANONYMOUS_ANIMALS.length 0 = some i :=
      firstFreeAux_finds_least _ ANONYMOUS_ANIMALS.length 0 i (Nat.zero_le i) (by omega)
        hnot (fun j _ hj => hall j hj)
    simp [get_anonymous_name, hs, hf]
  · intro hall
    have hf : firstFreeAux (s.students.map (fun p => p.2.animal_index))
        ANONYMOUS_ANIMALS.length 0 = none :=
      firstFreeAux_none _ ANONYMOUS_ANIMALS.length 0 (fun j _ hj => hall j (by omega))
    simp [get_anonymous_name, hs, hf]

/-- C7 witness: in the demo session with no participants the allocator hands
out the lowest index 0, i.e. (🦊, Fuchs). -/
theorem c7_allocator_lowest_free_or_suffixed_fallback_witness :
    alookup demoReg "ABC123" = some demoSession ∧
    get_anonymous_name demoReg "ABC123" "S1" 7 = (0, ("🦊", "Fuchs")) :=
  ⟨rfl,
   (c7_allocator_lowest_free_or_suffixed_fallback demoReg "ABC123" "S1" 7 demoSession
      rfl).2.1 0 (by decide) (by decide) (fun j hj => absurd hj (Nat.not_lt_zero j))⟩

/-- C1 (counterexample): the HTTP text-update endpoint performs the mutation
and broadcast for ANY caller: with the demo session owned by connection
`TEACH` and acting connection `EVIL` (not the owner — the endpoint does not
even receive a connection identity to check), the call rewrites the shared
text, emits a `text_updated` broadcast into the session room, and returns
success instead of an authorization failure. -/
theorem c1_counterexample_http_set_text_bypasses_owner_check :
    demoSession.teacher_sid = some "TEACH" ∧
    ("EVIL" : String) ≠ "TEACH" ∧
    (alookup (api_set_session_text demoReg (some "ABC123") (some "hacked")).1 "ABC123").map
        Session.text = some "hacked" ∧
    ((api_set_session_text demoReg (some "ABC123") (some "hacked")).2.1.map Emit.room) =
      [some "ABC123"] ∧
    (api_set_session_text demoReg (some "ABC123") (some "hacked")).2.2.status = 200 := by
  refine ⟨rfl, by decide, ?_, ?_, ?_⟩ <;> decide

/-- C1 (amended): each owner-only WebSocket mutation (settings push, task
release, simplification toggle, translation approve/deny, session end)
re-validates the acting connection against the session's recorded owner; on a
mismatch against a live session the registry is returned unchanged and the only
emit is the `session_error` reply to the caller (room `none`, hence no
broadcast).  The HTTP set-text and end endpoints, by contrast, carry no
connection identity and perform mutation and broadcast for any caller (see the
counterexample). -/
theorem c1_ws_owner_mutations_reject_non_owner (reg : Registry) (now : Nat)
    (sid codeRaw : String) (s : Session)
    (hs : alookup reg (normCode codeRaw) = some s)
    (hlive : now < s.expires)
    (hauth : s.teacher_sid ≠ some sid) :
    (∀ settings, handle_teacher_update_settings reg now sid (some codeRaw) settings =
       (reg, [sessionError "Keine Berechtigung oder Session nicht gefunden"])) ∧
    (∀ tasks, handle_teacher_release_tasks reg now sid (some codeRaw) tasks =
       (reg, [sessionError "Keine Berechtigung oder Session nicht gefunden"])) ∧
    (∀ enabled, handle_teacher_toggle_simplification reg now sid (some codeRaw) enabled =
       (reg, [sessionError "Keine Berechtigung"])) ∧
    (∀ stSid layout translate,
       handle_teacher_approve_translation reg now sid (some codeRaw) stSid layout translate =
       (reg, [sessionError "Keine Berechtigung"])) ∧
    (∀ stSid, handle_teacher_deny_translation reg now sid (some codeRaw) stSid =
       (reg, [sessionError "Keine Berechtigung"])) ∧
    (handle_teacher_end_session reg now sid (some codeRaw) =
       (reg, [sessionError "Keine Berechtigung oder Session nicht gefunden"])) ∧
    (∀ msg, (sessionError msg).room = none) := by
  have hget : get_session reg now (normCode codeRaw) = (some s, reg) := by
    simp [get_session, hs, hlive]
  refine ⟨?_, ?_, ?_, ?_, ?_, ?_, fun msg => rfl⟩
  · intro settings
    simp [handle_teacher_update_settings, hget, hauth]
  · intro tasks
    simp [handle_teacher_release_tasks, hget, hauth]
  · intro enabled
    simp [handle_teacher_toggle_simplification, hget, hauth]
  · intro stSid layout translate
    simp [handle_teacher_approve_translation, hget, hauth]
  · intro stSid
    simp [handle_teacher_deny_translation, hget, hauth]
  · simp [handle_teacher_end_session, hget, hauth]

/-- C1 amended witness: the non-owner connection `EVIL` is rejected by the
settings push against the live demo session, with the registry untouched. -/
theorem c1_ws_owner_mutations_reject_non_owner_witness :
    alookup demoReg (normCode "ABC123") = some demoSession ∧
    handle_teacher_update_settings demoReg 0 "EVIL" (some "ABC123") none =
      (demoReg, [sessionError "Keine Berechtigung oder Session nicht gefunden"]) :=
  ⟨by decide,
   (c1_ws_owner_mutations_reject_non_owner demoReg 0 "EVIL" "ABC123" demoSession
      (by decide) (by decide) (by decide)).1 none⟩

/-- C2 (counterexample): `api_session_settings` serializes the credential
bundle's voice/STT provider identifiers straight into its response body: the
demo session's `voice_id` value and `stt_provider` value both appear among the
response's string leaves, so the bundle's "selected voice/provider identifiers"
are exposed. -/
theorem c2_counterexample_settings_serializes_voice_and_stt :
    demoSession.keys.voice_id = "VOICE-SECRET-77" ∧
    demoSession.keys.stt_provider = some "scribe" ∧
    "VOICE-SECRET-77" ∈ jstrings (api_session_settings demoReg 0 "ABC123").2.body ∧
    "scribe" ∈ jstrings (api_session_settings demoReg 0 "ABC123").2.body := by
  refine ⟨rfl, rfl, ?_, ?_⟩ <;> decide

theorem alookup_mem {β : Type} {l : List (String × β)} {key : String} {v : β}
    (h : alookup l key = some v) : (key, v) ∈ l := by
  induction l with
  | nil => simp [alookup] at h
  | cons hd tl ih =>
    obtain ⟨a, b⟩ := hd
    by_cases hak : a = key
    · simp only [alookup, if_pos hak] at h
      injection h with h'
      subst h'
      rw [← hak]
      exact List.mem_cons_self _ _
    · simp only [alookup, if_neg hak] at h
      exact List.mem_cons_of_mem _ (ih h)

theorem sps_text_mem (s : Session) : s.text ∈ sessionPublicStrings s := by
  simp [sessionPublicStrings]

theorem sps_voice_mem (s : Session) : s.keys.voice_id ∈ sessionPublicStrings s := by
  simp [sessionPublicStrings]

theorem sps_stt_mem (s : Session) :
    s.keys.stt_provider.getD "browser" ∈ sessionPublicStrings s := by
  simp [sessionPublicStrings]

theorem sps_settings_fst_mem (s : Session) {x : String}
    (h : x ∈ s.settings.map Prod.fst) : x ∈ sessionPublicStrings s := by
  simp only [sessionPublicStrings, List.mem_append]
  tauto

theorem sps_settings_snd_mem (s : Session) {x : String}
    (h : x ∈ s.settings.map Prod.snd) : x ∈ sessionPublicStrings s := by
  simp only [sessionPublicStrings, List.mem_append]
  tauto

theorem sps_tasks_mem (s : Session) {x : String} (h : x ∈ s.tasks) :
    x ∈ sessionPublicStrings s := by
  simp only [sessionPublicStrings, List.mem_append]
  tauto

theorem sps_student_mem (s : Session) {sid : String} {st : Student}
    (h : alookup s.students sid = some st) {x : String} (hx : x ∈ studentStrings st) :
    x ∈ sessionPublicStrings s := by
  have hmem : (sid, st) ∈ s.students := alookup_mem h
  have hin : studentStrings st ∈ s.students.map (fun p => studentStrings p.2) :=
    List.mem_map.mpr ⟨(sid, st), hmem, rfl⟩
  have : x ∈ (s.students.map (fun p => studentStrings p.2)).flatten :=
    List.mem_flatten.mpr ⟨studentStrings st, hin, hx⟩
  simp only [sessionPublicStrings, List.mem_append]
  tauto

theorem sps_treq_mem (s : Session) {sid : String} {q : TranslationRequest}
    (h : alookup s.translation_requests sid = some q) {x : String}
    (hx : x ∈ treqStrings q) : x ∈ sessionPublicStrings s := by
  have hmem : (sid, q) ∈ s.translation_requests := alookup_mem h
  have hin : treqStrings q ∈ s.translation_requests.map (fun p => treqStrings p.2) :=
    List.mem_map.mpr ⟨(sid, q), hmem, rfl⟩
  have : x ∈ (s.translation_requests.map (fun p => treqStrings p.2)).flatten :=
    List.mem_flatten.mpr ⟨treqStrings q, hin, hx⟩
  simp only [sessionPublicStrings, List.mem_append]
  tauto

theorem get_session_fst_some {reg : Registry} {now : Nat} {code : String} {s : Session}
    (h : (get_session reg now code).1 = some s) : alookup reg code = some s := by
  rcases hl : alookup reg code with _ | s'
  · simp [get_session, hl] at h
  · by_cases ht : now < s'.expires
    · simpa [get_session, hl, ht] using h
    · simp [get_session, hl, ht] at h

theorem const_ne {k c : String} (hconst : k ∉ apiConstStrings)
    (hc : c ∈ apiConstStrings) : k ≠ c :=
  fun h => hconst (h ▸ hc)

theorem noleak_api_session_settings (reg : Registry) (now : Nat) (k code : String)
    (hconst : k ∉ apiConstStrings)
    (hsess : ∀ c s, alookup reg c = some s → k ∉ sessionPublicStrings s)
    (hcode : k ≠ normCode code) :
    k ∉ jstrings (api_session_settings reg now code).2.body := by
  simp only [api_session_settings]
  rcases hl : alookup reg (normCode code) with _ | s
  · simp only [get_session, hl]
    simp [jstrings, jstringsObj, errBody]
    exact const_ne hconst (by decide)
  · by_cases ht : now < s.expires
    · have hpub := hsess _ _ hl
      simp only [get_session, hl, if_pos ht]
      simp [jstrings, jstringsObj]
      exact ⟨hcode, fun h => hpub (h ▸ sps_stt_mem s), fun h => hpub (h ▸ sps_voice_mem s)⟩
    · simp only [get_session, hl, if_neg ht]
      simp [jstrings, jstringsObj, errBody]
      exact const_ne hconst (by decide)

theorem noleak_api_session_status (reg : Registry) (now : Nat) (k code : String)
    (hconst : k ∉ apiConstStrings)
    (hcode : k ≠ normCode code) :
    k ∉ jstrings (api_session_status reg now code).2.body := by
  simp only [api_session_status]
  rcases hl : alookup reg (normCode code) with _ | s
  · simp only [get_session, hl]
    simp [jstrings, jstringsObj, errBody]
    exact const_ne hconst (by decide)
  · by_cases ht : now < s.expires
    · simp only [get_session, hl, if_pos ht]
      simp [jstrings, jstringsObj]
      exact hcode
    · simp only [get_session, hl, if_neg ht]
      simp [jstrings, jstringsObj, errBody]
      exact const_ne hconst (by decide)

theorem noleak_api_get_session_text (reg : Registry) (now : Nat) (k code : String)
    (hconst : k ∉ apiConstStrings)
    (hsess : ∀ c s, alookup reg c = some s → k ∉ sessionPublicStrings s) :
    k ∉ jstrings (api_get_session_text reg now code).2.body := by
  simp only [api_get_session_text]
  rcases hl : alookup reg (normCode code) with _ | s
  · simp only [get_session, hl]
    simp [jstrings, jstringsObj, errBody]
    exact const_ne hconst (by decide)
  · by_cases ht : now < s.expires
    · have hpub := hsess _ _ hl
      simp only [get_session, hl, if_pos ht]
      simp [jstrings, jstringsObj]
      exact fun h => hpub (h ▸ sps_text_mem s)
    · simp only [get_session, hl, if_neg ht]
      simp [jstrings, jstringsObj, errBody]
      exact const_ne hconst (by decide)

theorem noleak_api_join_session (reg : Registry) (now : Nat) (k : String)
    (code : Option String)
    (hconst : k ∉ apiConstStrings)
    (hcode : k ≠ normCode (code.getD "")) :
    k ∉ jstrings (api_join_session reg now code).2.body := by
  simp only [api_join_session]
  rcases hl : alookup reg (normCode (code.getD "")) with _ | s
  · simp only [get_session, hl]
    simp [jstrings, jstringsObj, errBody]
    exact const_ne hconst (by decide)
  · by_cases ht : now < s.expires
    · simp only [get_session, hl, if_pos ht]
      simp [jstrings, jstringsObj]
      exact hcode
    · simp only [get_session, hl, if_neg ht]
      simp [jstrings, jstringsObj, errBody]
      exact const_ne hconst (by decide)

theorem noleak_api_end_session (reg : Registry) (k : String) (code : Option String)
    (hconst : k ∉ apiConstStrings) :
    k ∉ jstrings (api_end_session reg code).2.2.body ∧
    k ∉ emitsStrings (api_end_session reg code).2.1 := by
  simp only [api_end_session]
  by_cases hm : amem reg (normCode (code.getD "")) = true
  · simp only [end_session, if_pos hm]
    constructor
    · simp [jstrings, jstringsObj]
    · simp [emitsStrings, jstrings, jstringsObj]
      exact const_ne hconst (by decide)
  · simp only [end_session, if_neg hm]
    constructor
    · simp [jstrings, jstringsObj, errBody]
      exact const_ne hconst (by decide)
    · simp [emitsStrings]

theorem noleak_api_set_session_text (reg : Registry) (k : String)
    (code text : Option String)
    (hconst : k ∉ apiConstStrings)
    (htext : k ≠ text.getD "") :
    k ∉ jstrings (api_set_session_text reg code text).2.2.body ∧
    k ∉ emitsStrings (api_set_session_text reg code text).2.1 := by
  simp only [api_set_session_text]
  by_cases hm : amem reg (normCode (code.getD "")) = true
  · simp only [if_pos hm]
    constructor
    · simp [jstrings, jstringsObj]
    · simp [emitsStrings, jstrings, jstringsObj]
      exact htext
  · simp only [if_neg hm]
    constructor
    · simp [jstrings, jstringsObj, errBody]
      exact const_ne hconst (by decide)
    · simp [emitsStrings]

theorem create_session_code_from_stream {reg : Registry} {now : Nat} {t : Option String}
    {keys : Keys} {pin : String} {stream : Nat → Nat → Nat} {fuel : Nat}
    {cr : String × Registry}
    (h : create_session reg now t keys pin stream fuel = some cr) :
    ∃ j, cr.1 = sampleCode (stream j) := by
  simp only [create_session] at h
  rcases hg : generate_session_code reg stream fuel 0 with _ | c
  · rw [hg] at h
    simp at h
  · rw [hg] at h
    injection h with h'
    subst h'
    obtain ⟨-, j, hj⟩ := generate_session_code_not_present reg stream fuel 0 c hg
    exact ⟨j, hj⟩

theorem noleak_api_create_session (reg : Registry) (now : Nat) (k : String)
    (el ai prov voice : Option String) (stream : Nat → Nat → Nat) (fuel : Nat)
    (hconst : k ∉ apiConstStrings)
    (hgen : ∀ i, k ≠ sampleCode (stream i)) :
    k ∉ jstrings (api_create_session reg now el ai prov voice stream fuel).2.body := by
  simp only [api_create_session]
  split
  · simp [jstrings, jstringsObj, errBody]
    exact const_ne hconst (by decide)
  · split
    · next cr heq =>
      simp [jstrings, jstringsObj]
      obtain ⟨j, hj⟩ := create_session_code_from_stream heq
      rw [hj]
      exact hgen j
    · simp [jstrings, jstringsObj, errBody]
      exact const_ne hconst (by decide)

theorem noleak_handle_teacher_create_session (reg : Registry) (now : Nat) (k sid : String)
    (el ai prov voice stt pin : Option String) (stream : Nat → Nat → Nat) (fuel : Nat)
    (hconst : k ∉ apiConstStrings)
    (hgen : ∀ i, k ≠ sampleCode (stream i)) :
    k ∉ emitsStrings
      (handle_teacher_create_session reg now sid el ai prov voice stt pin stream fuel).2 := by
  simp only [handle_teacher_create_session]
  split
  · simp [emitsStrings, jstrings, jstringsObj, sessionError]
    exact const_ne hconst (by decide)
  · split
    · next cr heq =>
      simp [emitsStrings, jstrings, jstringsObj]
      obtain ⟨j, hj⟩ := create_session_code_from_stream heq
      rw [hj]
      exact hgen j
    · simp [emitsStrings]

theorem firstFreeAux_lt_of_some (used : List Nat) :
    ∀ (fuel start i : Nat), firstFreeAux used fuel start = some i → i < start + fuel := by
  intro fuel
  induction fuel with
  | zero =>
    intro start i h
    simp [firstFreeAux] at h
  | succ n ih =>
    intro start i h
    simp only [firstFreeAux] at h
    by_cases hc : used.contains start = true
    · rw [if_pos hc] at h
      have := ih (start + 1) i h
      omega
    · rw [if_neg hc] at h
      injection h with h'
      omega

theorem get_anonymous_name_catalogue (reg : Registry) (code sid : String) (rp : Nat) :
    ∃ p, p ∈ ANONYMOUS_ANIMALS ∧
      ((get_anonymous_name reg code sid rp).2 = p ∨
       ∃ n : Nat, (get_anonymous_name reg code sid rp).2 = (p.1, p.2 ++ " " ++ toString n)) := by
  rcases hl : alookup reg code with _ | s
  · refine ⟨("🦊", "Fuchs"), by decide, Or.inl ?_⟩
    simp [get_anonymous_name, hl]
    decide
  · rcases hf : firstFreeAux (s.students.map (fun p => p.2.animal_index))
        ANONYMOUS_ANIMALS.length 0 with _ | i
    · have hidx : rp % ANONYMOUS_ANIMALS.length < ANONYMOUS_ANIMALS.length :=
        Nat.mod_lt _ (by decide)
      refine ⟨ANONYMOUS_ANIMALS.getD (rp % ANONYMOUS_ANIMALS.length) ("", ""),
        getD_mem_of_lt _ _ _ hidx, Or.inr ⟨s.students.length + 1, ?_⟩⟩
      simp [get_anonymous_name, hl, hf]
    · have hi : i < ANONYMOUS_ANIMALS.length := by
        have := firstFreeAux_lt_of_some _ ANONYMOUS_ANIMALS.length 0 i hf
        omega
      refine ⟨ANONYMOUS_ANIMALS.getD i ("", ""), getD_mem_of_lt _ _ _ hi, Or.inl ?_⟩
      simp [get_anonymous_name, hl, hf]

/-- Strings that `k` must avoid to be unconstructable from the anonymous-animal
catalogue: the emojis, labels, suffixed labels, and assembled anonymous ids. -/
def animalFresh (k : String) : Prop :=
  ∀ p ∈ ANONYMOUS_ANIMALS, k ≠ p.1 ∧ k ≠ p.2 ∧
    (∀ n : Nat, k ≠ p.2 ++ " " ++ toString n) ∧
    k ≠ p.1 ++ " " ++ p.2 ∧
    (∀ n : Nat, k ≠ p.1 ++ " " ++ (p.2 ++ " " ++ toString n))

theorem animalFresh_components {k : String} (ha : animalFresh k) (reg : Registry)
    (code sid : String) (rp : Nat) :
    k ≠ (get_anonymous_name reg code sid rp).2.1 ∧
    k ≠ (get_anonymous_name reg code sid rp).2.2 ∧
    k ≠ (get_anonymous_name reg code sid rp).2.1 ++ " " ++
        (get_anonymous_name reg code sid rp).2.2 := by
  obtain ⟨p, hp, hcase⟩ := get_anonymous_name_catalogue reg code sid rp
  obtain ⟨h1, h2, h3, h4, h5⟩ := ha p hp
  rcases hcase with he | ⟨n, he⟩
  · rw [he]
    exact ⟨h1, h2, h4⟩
  · rw [he]
    exact ⟨h1, h3 n, h5 n⟩

theorem jstringsObj_map_jstr (l : List (String × String)) :
    jstringsObj (l.map (fun p => (p.1, JVal.jstr p.2))) = l.map Prod.snd := by
  induction l with
  | nil => rfl
  | cons hd tl ih =>
    simp only [List.map_cons, jstringsObj, jstrings]
    rw [ih]
    simp

theorem jstringsArr_map_jstr (l : List String) :
    jstringsArr (l.map JVal.jstr) = l := by
  induction l with
  | nil => rfl
  | cons hd tl ih =>
    simp only [List.map_cons, jstringsArr, jstrings]
    rw [ih]
    simp

theorem noleak_handle_student_join_session (reg : Registry) (now : Nat) (k sid : String)
    (code name : Option String) (rp : Nat)
    (hconst : k ∉ apiConstStrings)
    (hsess : ∀ c s, alookup reg c = some s → k ∉ sessionPublicStrings s)
    (hanimal : animalFresh k)
    (hcode : k ≠ normCode (code.getD ""))
    (hname : k ≠ name.getD "Anonym")
    (hsid : k ≠ sid) :
    k ∉ emitsStrings (handle_student_join_session reg now sid code name rp).2 := by
  simp only [handle_student_join_session]
  rcases hl : alookup reg (normCode (code.getD "")) with _ | s
  · simp only [get_session, hl]
    simp [emitsStrings, jstrings, jstringsObj, errBody]
    exact const_ne hconst (by decide)
  · by_cases ht : now < s.expires
    · have hpub := hsess _ _ hl
      obtain ⟨he1, he2, he3⟩ :=
        animalFresh_components hanimal reg (normCode (code.getD "")) sid rp
      have htext : ¬ k = s.text := fun h => hpub (h ▸ sps_text_mem s)
      have hsettings : k ∉ s.settings.map Prod.snd := fun h => hpub (sps_settings_snd_mem s h)
      have htasks : k ∉ s.tasks := fun h => hpub (sps_tasks_mem s h)
      simp only [get_session, hl, if_pos ht]
      simp only [add_student_to_session, hl]
      by_cases hta : s.tasks_available = true
      · rcases hts : s.teacher_sid with _ | tsid
        · simp [emitsStrings, jstrings, jstringsObj, jstringsArr, jSettings, jTasks,
            jstringsObj_map_jstr, jstringsArr_map_jstr,
            hta, hts, hcode, htext, hsettings, htasks, he1, he2, he3, hname, hsid]
        · simp [emitsStrings, jstrings, jstringsObj, jstringsArr, jSettings, jTasks,
            jstringsObj_map_jstr, jstringsArr_map_jstr,
            hta, hts, hcode, htext, hsettings, htasks, he1, he2, he3, hname, hsid]
      · rcases hts : s.teacher_sid with _ | tsid
        · simp [emitsStrings, jstrings, jstringsObj, jstringsArr, jSettings, jTasks,
            jstringsObj_map_jstr, jstringsArr_map_jstr,
            hta, hts, hcode, htext, hsettings, htasks, he1, he2, he3, hname, hsid]
        · simp [emitsStrings, jstrings, jstringsObj, jstringsArr, jSettings, jTasks,
            jstringsObj_map_jstr, jstringsArr_map_jstr,
            hta, hts, hcode, htext, hsettings, htasks, he1, he2, he3, hname, hsid]
    · simp only [get_session, hl, if_neg ht]
      simp [emitsStrings, jstrings, jstringsObj, errBody]
      exact const_ne hconst (by decide)

theorem noleak_handle_teacher_end_session (reg : Registry) (now : Nat) (k sid : String)
    (code : Option String)
    (hconst : k ∉ apiConstStrings) :
    k ∉ emitsStrings (handle_teacher_end_session reg now sid code).2 := by
  simp only [handle_teacher_end_session]
  rcases hl : alookup reg (normCode (code.getD "")) with _ | s
  · simp only [get_session, hl]
    simp [emitsStrings, jstrings, jstringsObj, sessionError]
    exact const_ne hconst (by decide)
  · by_cases ht : now < s.expires
    · simp only [get_session, hl, if_pos ht]
      by_cases hown : s.teacher_sid = some sid
      · simp [hown, emitsStrings, jstrings, jstringsObj]
        exact const_ne hconst (by decide)
      · simp [hown, emitsStrings, jstrings, jstringsObj, sessionError]
        exact const_ne hconst (by decide)
    · simp only [get_session, hl, if_neg ht]
      simp [emitsStrings, jstrings, jstringsObj, sessionError]
      exact const_ne hconst (by decide)

theorem noleak_handle_teacher_update_settings (reg : Registry) (now : Nat) (k sid : String)
    (code : Option String) (settings : Option (List (String × String)))
    (hconst : k ∉ apiConstStrings)
    (hin : k ∉ (settings.getD []).map Prod.snd) :
    k ∉ emitsStrings (handle_teacher_update_settings reg now sid code settings).2 := by
  simp only [handle_teacher_update_settings]
  rcases hl : alookup reg (normCode (code.getD "")) with _ | s
  · simp only [get_session, hl]
    simp [emitsStrings, jstrings, jstringsObj, sessionError]
    exact const_ne hconst (by decide)
  · by_cases ht : now < s.expires
    · simp only [get_session, hl, if_pos ht]
      by_cases hown : s.teacher_sid = some sid
      · simp [hown, emitsStrings, jstrings, jstringsObj, jSettings, jstringsObj_map_jstr]
        simpa using hin
      · simp [hown, emitsStrings, jstrings, jstringsObj, sessionError]
        exact const_ne hconst (by decide)
    · simp only [get_session, hl, if_neg ht]
      simp [emitsStrings, jstrings, jstringsObj, sessionError]
      exact const_ne hconst (by decide)

theorem noleak_handle_teacher_release_tasks (reg : Registry) (now : Nat) (k sid : String)
    (code : Option String) (tasks : Option (List String))
    (hconst : k ∉ apiConstStrings)
    (hin : k ∉ tasks.getD []) :
    k ∉ emitsStrings (handle_teacher_release_tasks reg now sid code tasks).2 := by
  simp only [handle_teacher_release_tasks]
  rcases hl : alookup reg (normCode (code.getD "")) with _ | s
  · simp only [get_session, hl]
    simp [emitsStrings, jstrings, jstringsObj, sessionError]
    exact const_ne hconst (by decide)
  · by_cases ht : now < s.expires
    · simp only [get_session, hl, if_pos ht]
      by_cases hown : s.teacher_sid = some sid
      · simp [hown, emitsStrings, jstrings, jstringsObj, jTasks, jstringsArr_map_jstr]
        exact hin
      · simp [hown, emitsStrings, jstrings, jstringsObj, sessionError]
        exact const_ne hconst (by decide)
    · simp only [get_session, hl, if_neg ht]
      simp [emitsStrings, jstrings, jstringsObj, sessionError]
      exact const_ne hconst (by decide)

theorem noleak_handle_teacher_toggle_simplification (reg : Registry) (now : Nat)
    (k sid : String) (code : Option String) (enabled : Option Bool)
    (hconst : k ∉ apiConstStrings) :
    k ∉ emitsStrings (handle_teacher_toggle_simplification reg now sid code enabled).2 := by
  simp only [handle_teacher_toggle_simplification]
  rcases hl : alookup reg (normCode (code.getD "")) with _ | s
  · simp only [get_session, hl]
    simp [emitsStrings, jstrings, jstringsObj, sessionError]
    exact const_ne hconst (by decide)
  · by_cases ht : now < s.expires
    · simp only [get_session, hl, if_pos ht]
      by_cases hown : s.teacher_sid ≠ some sid
      · simp [hown, emitsStrings, jstrings, jstringsObj, sessionError]
        exact const_ne hconst (by decide)
      · simp [hown, emitsStrings, jstrings, jstringsObj]
    · simp only [get_session, hl, if_neg ht]
      simp [emitsStrings, jstrings, jstringsObj, sessionError]
      exact const_ne hconst (by decide)

theorem noleak_handle_student_request_translation (reg : Registry) (now : Nat)
    (k sid : String) (code language : Option String)
    (hconst : k ∉ apiConstStrings)
    (hsess : ∀ c s, alookup reg c = some s → k ∉ sessionPublicStrings s)
    (hlang : k ≠ language.getD "")
    (hlangname : k ≠ languageName (language.getD ""))
    (hsid : k ≠ sid) :
    k ∉ emitsStrings (handle_student_request_translation reg now sid code language).2 := by
  simp only [handle_student_request_translation]
  rcases hl : alookup reg (normCode (code.getD "")) with _ | s
  · simp only [get_session, hl]
    simp [emitsStrings, jstrings, jstringsObj, errBody]
    exact const_ne hconst (by decide)
  · by_cases ht : now < s.expires
    · have hpub := hsess _ _ hl
      simp only [get_session, hl, if_pos ht]
      rcases hst : alookup s.students sid with _ | st
      · rcases hts : s.teacher_sid with _ | tsid
        · simp [hst, hts, emitsStrings, jstrings, jstringsObj, hlang, hlangname, hsid]
        · simp [hst, hts, emitsStrings, jstrings, jstringsObj, hlang, hlangname, hsid]
          exact const_ne hconst (by decide)
      · have hanon : ¬ k = st.anonymous_id := fun h =>
          hpub (sps_student_mem s hst (by rw [h]; simp [studentStrings]))
        rcases hts : s.teacher_sid with _ | tsid
        · simp [hst, hts, emitsStrings, jstrings, jstringsObj, hlang, hlangname, hsid, hanon]
        · simp [hst, hts, emitsStrings, jstrings, jstringsObj, hlang, hlangname, hsid, hanon]
    · simp only [get_session, hl, if_neg ht]
      simp [emitsStrings, jstrings, jstringsObj, errBody]
      exact const_ne hconst (by decide)

theorem noleak_handle_teacher_approve_translation (reg : Registry) (now : Nat)
    (k sid : String) (code student_sid layout : Option String)
    (translate : String → String → String → String → Except String String)
    (hconst : k ∉ apiConstStrings)
    (hsess : ∀ c s, alookup reg c = some s → k ∉ sessionPublicStrings s)
    (hstsid : k ≠ student_sid.getD "")
    (hlayout : k ≠ layout.getD "side-by-side")
    (htrok : ∀ a b c d out, translate a b c d = Except.ok out → k ≠ out)
    (htrerr : ∀ a b c d e, translate a b c d = Except.error e →
       k ≠ "Übersetzungsfehler: " ++ e) :
    k ∉ emitsStrings
      (handle_teacher_approve_translation reg now sid code student_sid layout translate).2 := by
  simp only [handle_teacher_approve_translation]
  rcases hl : alookup reg (normCode (code.getD "")) with _ | s
  · simp only [get_session, hl]
    simp [emitsStrings, jstrings, jstringsObj, sessionError]
    exact const_ne hconst (by decide)
  · by_cases ht : now < s.expires
    · have hpub := hsess _ _ hl
      simp only [get_session, hl, if_pos ht]
      by_cases hown : s.teacher_sid ≠ some sid
      · simp [hown, emitsStrings, jstrings, jstringsObj, sessionError]
        exact const_ne hconst (by decide)
      · rcases hrq : alookup s.translation_requests (student_sid.getD "") with _ | treq
        · simp [hown, hrq, emitsStrings, jstrings, jstringsObj, sessionError]
          exact const_ne hconst (by decide)
        · have hlangq : ¬ k = treq.language := fun h =>
            hpub (sps_treq_mem s hrq (by rw [h]; simp [treqStrings]))
          have hlangnameq : ¬ k = languageName treq.language := fun h =>
            hpub (sps_treq_mem s hrq (by rw [h]; simp [treqStrings]))
          have hanonq : ¬ k = treq.anonymous_id := fun h =>
            hpub (sps_treq_mem s hrq (by rw [h]; simp [treqStrings]))
          by_cases htxt : s.text = ""
          · simp [hown, hrq, htxt, emitsStrings, jstrings, jstringsObj, sessionError]
            exact const_ne hconst (by decide)
          · by_cases hai : s.keys.ai = ""
            · simp [hown, hrq, htxt, hai, emitsStrings, jstrings, jstringsObj,
                hlangq, hlayout]
              exact const_ne hconst (by decide)
            · rcases htr : translate s.text treq.language s.keys.ai s.keys.ai_provider
                with e | out
              · simp [hown, hrq, htxt, hai, htr, emitsStrings, jstrings, jstringsObj,
                  sessionError]
                exact htrerr _ _ _ _ e htr
              · simp [hown, hrq, htxt, hai, htr, emitsStrings, jstrings, jstringsObj,
                  hlangq, hlangnameq, hlayout, hstsid, hanonq]
                exact htrok _ _ _ _ out htr
    · simp only [get_session, hl, if_neg ht]
      simp [emitsStrings, jstrings, jstringsObj, sessionError]
      exact const_ne hconst (by decide)

theorem noleak_handle_teacher_deny_translation (reg : Registry) (now : Nat)
    (k sid : String) (code student_sid : Option String)
    (hconst : k ∉ apiConstStrings)
    (hsess : ∀ c s, alookup reg c = some s → k ∉ sessionPublicStrings s)
    (hstsid : k ≠ student_sid.getD "") :
    k ∉ emitsStrings (handle_teacher_deny_translation reg now sid code student_sid).2 := by
  simp only [handle_teacher_deny_translation]
  rcases hl : alookup reg (normCode (code.getD "")) with _ | s
  · simp only [get_session, hl]
    simp [emitsStrings, jstrings, jstringsObj, sessionError]
    exact const_ne hconst (by decide)
  · by_cases ht : now < s.expires
    · have hpub := hsess _ _ hl
      simp only [get_session, hl, if_pos ht]
      by_cases hown : s.teacher_sid ≠ some sid
      · simp [hown, emitsStrings, jstrings, jstringsObj, sessionError]
        exact const_ne hconst (by decide)
      · rcases hrq : alookup s.translation_requests (student_sid.getD "") with _ | q
        · simp [hown, hrq, emitsStrings, jstrings, jstringsObj, hstsid]
          refine ⟨?_, ?_⟩ <;> exact const_ne hconst (by decide)
        · have hanonq : ¬ k = q.anonymous_id := fun h =>
            hpub (sps_treq_mem s hrq (by rw [h]; simp [treqStrings]))
          simp [hown, hrq, emitsStrings, jstrings, jstringsObj, hstsid, hanonq]
          exact const_ne hconst (by decide)
    · simp only [get_session, hl, if_neg ht]
      simp [emitsStrings, jstrings, jstringsObj, sessionError]
      exact const_ne hconst (by decide)

theorem noleak_handle_student_using_simplified (reg : Registry) (now : Nat)
    (k sid : String) (code level : Option String)
    (hsess : ∀ c s, alookup reg c = some s → k ∉ sessionPublicStrings s)
    (hlevel : k ≠ level.getD "original")
    (hsid : k ≠ sid) :
    k ∉ emitsStrings (handle_student_using_simplified reg now sid code level).2 := by
  simp only [handle_student_using_simplified]
  rcases hl : alookup reg (normCode (code.getD "")) with _ | s
  · simp [get_session, hl, emitsStrings]
  · by_cases ht : now < s.expires
    · have hpub := hsess _ _ hl
      simp only [get_session, hl, if_pos ht]
      rcases hst : alookup s.students sid with _ | st
      · rcases hts : s.teacher_sid with _ | tsid
        · simp [hst, hts, emitsStrings]
        · simp [hst, hts, emitsStrings, jstrings, jstringsObj, hlevel, hsid]
      · have hanon : ¬ k = st.anonymous_id := fun h =>
          hpub (sps_student_mem s hst (by rw [h]; simp [studentStrings]))
        rcases hts : s.teacher_sid with _ | tsid
        · simp [hst, hts, emitsStrings]
        · simp [hst, hts, emitsStrings, jstrings, jstringsObj, hlevel, hsid, hanon]
    · simp only [get_session, hl, if_neg ht]
      simp [emitsStrings]

theorem emitsStrings_append (a b : List Emit) :
    emitsStrings (a ++ b) = emitsStrings a ++ emitsStrings b := by
  induction a with
  | nil => rfl
  | cons hd tl ih =>
    simp only [List.cons_append, emitsStrings, List.foldr_cons] at ih ⊢
    rw [ih]
    simp [List.append_assoc]

theorem emitsStrings_handle_disconnect (reg : Registry) (sid : String) :
    emitsStrings (handle_disconnect reg sid).2 = [] := by
  simp only [handle_disconnect]
  induction reg with
  | nil => rfl
  | cons hd tl ih =>
    simp only [List.foldr_cons]
    by_cases hm : amem hd.2.students sid = true
    · rw [if_pos hm]
      rcases hts : hd.2.teacher_sid with _ | tsid
      · simpa using ih
      · rw [emitsStrings_append]
        simp only [emitsStrings, List.foldr_cons, List.foldr_nil, jstrings, jstringsObj]
        simpa using ih
    · rw [if_neg hm]
      exact ih

theorem noleak_handle_disconnect (reg : Registry) (k sid : String) :
    k ∉ emitsStrings (handle_disconnect reg sid).2 := by
  rw [emitsStrings_handle_disconnect]
  simp

theorem ne_of_no_space {k : String} (hk : ' ' ∉ k.data) (a b : String) :
    k ≠ a ++ " " ++ b := by
  intro h
  apply hk
  rw [h]
  have hdata : (a ++ " " ++ b).data = (a.data ++ [' ']) ++ b.data := rfl
  rw [hdata]
  simp

/-- C2 (amended): across the embedded session/real-time surface, no API
response body and no emit payload contains a string `k` that is distinct from
the serialized non-credential material (the session's public strings, the
catalogue-derived anonymous identities, the request inputs, the generated
codes, the provider-oracle outputs, and the fixed message literals).  In
particular the provider API keys (`keys.elevenlabs`, `keys.ai`) are never
serialized — no payload draws on them.  The bundle's voice/STT identifiers,
however, ARE serialized by the session-settings endpoint (see the
counterexample), so the original claim is weakened to exclude them. -/
theorem c2_no_api_key_in_any_response_or_broadcast (reg : Registry) (now : Nat)
    (k : String)
    (hconst : k ∉ apiConstStrings)
    (hsess : ∀ c s, alookup reg c = some s → k ∉ sessionPublicStrings s)
    (hanimal : animalFresh k) :
    (∀ el ai prov voice stream fuel, (∀ i, k ≠ sampleCode (stream i)) →
       k ∉ jstrings (api_create_session reg now el ai prov voice stream fuel).2.body) ∧
    (∀ code, k ≠ normCode (code.getD "") →
       k ∉ jstrings (api_join_session reg now code).2.body) ∧
    (∀ code, k ∉ jstrings (api_end_session reg code).2.2.body ∧
       k ∉ emitsStrings (api_end_session reg code).2.1) ∧
    (∀ code, k ≠ normCode code →
       k ∉ jstrings (api_session_status reg now code).2.body) ∧
    (∀ code, k ≠ normCode code →
       k ∉ jstrings (api_session_settings reg now code).2.body) ∧
    (∀ code, k ∉ jstrings (api_get_session_text reg now code).2.body) ∧
    (∀ code text, k ≠ text.getD "" →
       k ∉ jstrings (api_set_session_text reg code text).2.2.body ∧
       k ∉ emitsStrings (api_set_session_text reg code text).2.1) ∧
    (∀ sid el ai prov voice stt pin stream fuel, (∀ i, k ≠ sampleCode (stream i)) →
       k ∉ emitsStrings
         (handle_teacher_create_session reg now sid el ai prov voice stt pin stream fuel).2) ∧
    (∀ sid code name rp, k ≠ normCode (code.getD "") → k ≠ name.getD "Anonym" → k ≠ sid →
       k ∉ emitsStrings (handle_student_join_session reg now sid code name rp).2) ∧
    (∀ sid code, k ∉ emitsStrings (handle_teacher_end_session reg now sid code).2) ∧
    (∀ sid code settings, k ∉ (settings.getD []).map Prod.snd →
       k ∉ emitsStrings (handle_teacher_update_settings reg now sid code settings).2) ∧
    (∀ sid code tasks, k ∉ tasks.getD [] →
       k ∉ emitsStrings (handle_teacher_release_tasks reg now sid code tasks).2) ∧
    (∀ sid code language, k ≠ language.getD "" → k ≠ languageName (language.getD "") →
       k ≠ sid →
       k ∉ emitsStrings (handle_student_request_translation reg now sid code language).2) ∧
    (∀ sid code student_sid layout translate,
       k ≠ student_sid.getD "" → k ≠ layout.getD "side-by-side" →
       (∀ a b c d out, translate a b c d = Except.ok out → k ≠ out) →
       (∀ a b c d e, translate a b c d = Except.error e →
          k ≠ "Übersetzungsfehler: " ++ e) →
       k ∉ emitsStrings
         (handle_teacher_approve_translation reg now sid code student_sid layout translate).2) ∧
    (∀ sid code student_sid, k ≠ student_sid.getD "" →
       k ∉ emitsStrings (handle_teacher_deny_translation reg now sid code student_sid).2) ∧
    (∀ sid code enabled,
       k ∉ emitsStrings (handle_teacher_toggle_simplification reg now sid code enabled).2) ∧
    (∀ sid code level, k ≠ level.getD "original" → k ≠ sid →
       k ∉ emitsStrings (handle_student_using_simplified reg now sid code level).2) ∧
    (∀ sid, k ∉ emitsStrings (handle_disconnect reg sid).2) := by
  refine ⟨?_, ?_, ?_, ?_, ?_, ?_, ?_, ?_, ?_, ?_, ?_, ?_, ?_, ?_, ?_, ?_, ?_, ?_⟩
  · exact fun el ai prov voice stream fuel hg =>
      noleak_api_create_session reg now k el ai prov voice stream fuel hconst hg
  · exact fun code hc => noleak_api_join_session reg now k code hconst hc
  · exact fun code => noleak_api_end_session reg k code hconst
  · exact fun code hc => noleak_api_session_status reg now k code hconst hc
  · exact fun code hc => noleak_api_session_settings reg now k code hconst hsess hc
  · exact fun code => noleak_api_get_session_text reg now k code hconst hsess
  · exact fun code text htext => noleak_api_set_session_text reg k code text hconst htext
  · exact fun sid el ai prov voice stt pin stream fuel hg =>
      noleak_handle_teacher_create_session reg now k sid el ai prov voice stt pin
        stream fuel hconst hg
  · exact fun sid code name rp hc hn hs =>
      noleak_handle_student_join_session reg now k sid code name rp hconst hsess
        hanimal hc hn hs
  · exact fun sid code => noleak_handle_teacher_end_session reg now k sid code hconst
  · exact fun sid code settings hin =>
      noleak_handle_teacher_update_settings reg now k sid code settings hconst hin
  · exact fun sid code tasks hin =>
      noleak_handle_teacher_release_tasks reg now k sid code tasks hconst hin
  · exact fun sid code language h1 h2 h3 =>
      noleak_handle_student_request_translation reg now k sid code language hconst
        hsess h1 h2 h3
  · exact fun sid code student_sid layout translate h1 h2 h3 h4 =>
      noleak_handle_teacher_approve_translation reg now k sid code student_sid layout
        translate hconst hsess h1 h2 h3 h4
  · exact fun sid code student_sid h1 =>
      noleak_handle_teacher_deny_translation reg now k sid code student_sid hconst
        hsess h1
  · exact fun sid code enabled =>
      noleak_handle_teacher_toggle_simplification reg now k sid code enabled hconst
  · exact fun sid code level h1 h2 =>
      noleak_handle_student_using_simplified reg now k sid code level hsess h1 h2
  · exact fun sid => noleak_handle_disconnect reg k sid

/-- C2 amended witness: the demo session's stored AI key value never shows up
in the session-settings response (the endpoint that DOES serialize the
voice/STT identifiers). -/
theorem c2_no_api_key_in_any_response_or_broadcast_witness :
    "AI-API-KEY-SECRET-22" ∉ apiConstStrings ∧
    "AI-API-KEY-SECRET-22" ∉ jstrings (api_session_settings demoReg 0 "ABC123").2.body := by
  have hconst : "AI-API-KEY-SECRET-22" ∉ apiConstStrings := by decide
  have hsess : ∀ c s, alookup demoReg c = some s →
      "AI-API-KEY-SECRET-22" ∉ sessionPublicStrings s := by
    intro c s h
    simp only [demoReg, alookup] at h
    by_cases hc : "ABC123" = c
    · rw [if_pos hc] at h
      injection h with h'
      subst h'
      decide
    · rw [if_neg hc] at h
      exact Option.noConfusion h
  have hanimal : animalFresh "AI-API-KEY-SECRET-22" := by
    have hk : ' ' ∉ "AI-API-KEY-SECRET-22".data := by decide
    have hall : ∀ q ∈ ANONYMOUS_ANIMALS,
        "AI-API-KEY-SECRET-22" ≠ q.1 ∧ "AI-API-KEY-SECRET-22" ≠ q.2 := by decide
    intro p hp
    obtain ⟨h1, h2⟩ := hall p hp
    exact ⟨h1, h2, fun n => ne_of_no_space hk _ _, ne_of_no_space hk _ _,
      fun n => ne_of_no_space hk _ _⟩
  exact ⟨hconst,
    (c2_no_api_key_in_any_response_or_broadcast demoReg 0 "AI-API-KEY-SECRET-22"
      hconst hsess hanimal).2.2.2.2.1 "ABC123" (by decide)⟩

end Leseassistent
